import Mathlib

/-!
Verification of the airtable-ts field/record mapping engine.

This development shallowly embeds the mapping engine of the airtable-ts
library: the JS value model, the type-string descriptor and value matcher
(`src/mapping/typeUtils.ts`), the field coercion matrix
(`src/mapping/fieldMappers.ts`), the name resolver (`src/mapping/nameMapper.ts`),
the record mapper (`src/mapping/recordMapper.ts`), the error taxonomy and
context prefixing (`src/AirtableTsError.ts`), and the base-schema cache
(`src/getAirtableTsTable.ts`).

JavaScript values are modelled by the inductive `JsVal` (with `null` and
`undefined` kept distinct), JS objects by association lists with
assignment (`setKey`) semantics, and thrown errors by `Except JsError`.
JS `Date` behaviour is modelled for the ISO-8601 formats the library
produces and consumes: `jsDateToJSON` renders a millisecond timestamp the
way `Date.prototype.toJSON` does, and `jsDateParse` parses the canonical
`YYYY-MM-DDTHH:mm:ss.sssZ` and date-only `YYYY-MM-DD` forms (both
interpreted as UTC, as in ECMAScript); other legacy input formats the JS
parser would accept are out of the model and parse to `none`.
-/

namespace AirtableTs

/-- Model of a JavaScript runtime value. `null` and `undefined` are distinct;
numbers are modelled as rationals (the claims never depend on binary float
rounding). -/
inductive JsVal : Type where
  | null : JsVal
  | undef : JsVal
  | str : String → JsVal
  | num : Rat → JsVal
  | bool : Bool → JsVal
  | arr : List JsVal → JsVal
  | obj : List (String × JsVal) → JsVal
deriving Repr

mutual

/-- Structural equality on modelled JS values. -/
def JsVal.beq : JsVal → JsVal → Bool
  | .null, .null => true
  | .undef, .undef => true
  | .str a, .str b => a == b
  | .num a, .num b => a == b
  | .bool a, .bool b => a == b
  | .arr a, .arr b => JsVal.beqList a b
  | .obj a, .obj b => JsVal.beqFields a b
  | _, _ => false

/-- Structural equality on lists of modelled JS values. -/
def JsVal.beqList : List JsVal → List JsVal → Bool
  | [], [] => true
  | x :: xs, y :: ys => JsVal.beq x y && JsVal.beqList xs ys
  | _, _ => false

/-- Structural equality on field lists of modelled JS objects. -/
def JsVal.beqFields : List (String × JsVal) → List (String × JsVal) → Bool
  | [], [] => true
  | (k, x) :: xs, (l, y) :: ys => k == l && JsVal.beq x y && JsVal.beqFields xs ys
  | _, _ => false

end

instance : BEq JsVal := ⟨JsVal.beq⟩

/-- The JS `typeof` operator on modelled values (`typeof null` is
`"object"`, and arrays are objects). -/
def jsTypeof : JsVal → String
  | .null => "object"
  | .undef => "undefined"
  | .str _ => "string"
  | .num _ => "number"
  | .bool _ => "boolean"
  | .arr _ => "object"
  | .obj _ => "object"

/-- JS truthiness (`!!v`): `null`, `undefined`, `''`, `0` and `false` are
falsy; every array and object is truthy. -/
def jsTruthy : JsVal → Bool
  | .null => false
  | .undef => false
  | .str s => s ≠ ""
  | .num n => n ≠ 0
  | .bool b => b
  | .arr _ => true
  | .obj _ => true

/-- The JS nullish-coalescing operator `v ?? fallback`. -/
def jsNullish (v fallback : JsVal) : JsVal :=
  match v with
  | .null => fallback
  | .undef => fallback
  | w => w

/-- `Array.isArray`. -/
def isJsArray : JsVal → Bool
  | .arr _ => true
  | _ => false

/-- The strict-equality test `v === null`. -/
def isNull : JsVal → Bool
  | .null => true
  | _ => false

/-- The strict-equality test `v === undefined`. -/
def isUndef : JsVal → Bool
  | .undef => true
  | _ => false

/-- Key lookup in an association list modelling a JS object. -/
def lookupKey {α : Type} : List (String × α) → String → Option α
  | [], _ => none
  | (k, v) :: rest, key => if k = key then some v else lookupKey rest key

/-- A JS object: a list of properties in insertion order, keys unique. -/
abbrev JsRec := List (String × JsVal)

/-- Property read `r[k]`: `undefined` when the key is absent. -/
def getKey (r : JsRec) (k : String) : JsVal :=
  (lookupKey r k).getD JsVal.undef

/-- The JS `in` operator: key containment, regardless of the stored value
(a key holding `undefined` still counts as present). -/
def hasKey {α : Type} (r : List (String × α)) (k : String) : Bool :=
  (lookupKey r k).isSome

/-- Property assignment `r[k] = v`: replaces the value in place if the key
exists, appends otherwise. -/
def setKey {α : Type} : List (String × α) → String → α → List (String × α)
  | [], key, v => [(key, v)]
  | (k, w) :: rest, key, v =>
      if k = key then (k, v) :: rest else (k, w) :: setKey rest key v

/-- `Object.fromEntries`: sequential property assignment, later entries
overwrite earlier ones. -/
def fromEntries {α : Type} (es : List (String × α)) : List (String × α) :=
  es.foldl (fun r kv => setKey r kv.1 kv.2) []

/-- The error taxonomy of `AirtableTsError` (src/AirtableTsError.ts). -/
inductive ErrorType : Type where
  | SCHEMA_VALIDATION : ErrorType
  | RESOURCE_NOT_FOUND : ErrorType
  | INVALID_PARAMETER : ErrorType
  | API_ERROR : ErrorType
deriving Repr, DecidableEq

/-- A thrown JS error: either an `AirtableTsError` (carrying its message as
assembled by the constructor, and its `type` tag), or some other error
(a plain `Error`, or a runtime `TypeError`), carrying only a message. -/
inductive JsError : Type where
  | airtableTs : String → ErrorType → JsError
  | jsError : String → JsError
  | typeError : String → JsError
deriving Repr, DecidableEq

/-- The `AirtableTsError` constructor: the stored message is the given
message, suffixed with the suggestion when one is provided. -/
def mkAirtableTsError (message : String) (etype : ErrorType)
    (suggestion : Option String) : JsError :=
  match suggestion with
  | some s => .airtableTs (message ++ " Suggestion: " ++ s) etype
  | none => .airtableTs message etype

/-- `prependError` (src/AirtableTsError.ts): prefixes the message of an
`AirtableTsError` in place; any other error is returned unmodified. -/
def prependError (e : JsError) (pre : String) : JsError :=
  match e with
  | .airtableTs m t => .airtableTs (pre ++ ": " ++ m) t
  | other => other

/-- Whether an error is an `AirtableTsError` instance. -/
def isAirtableTsError : JsError → Bool
  | .airtableTs _ _ => true
  | _ => false

/-- The message of a modelled error. -/
def errorMessage : JsError → String
  | .airtableTs m _ => m
  | .jsError m => m
  | .typeError m => m

/-- `String.prototype.endsWith`, computed on the character list (the
iterator-based core `String.endsWith` does not reduce definitionally). -/
def strEndsWith (s post : String) : Bool :=
  post.data.isSuffixOf s.data

/-- Removal of the last `n` characters of a string (`slice(0, -n)`). -/
def strDropRight (s : String) (n : Nat) : String :=
  String.mk (s.data.take (s.data.length - n))

/-- The first `n` characters of a string (`slice(0, n)`). -/
def strTake (s : String) (n : Nat) : String :=
  String.mk (s.data.take n)

/-- The parsed form of a type string (typeUtils.ts `TypeDef`). -/
structure TypeDef : Type where
  single : String
  array : Bool
  nullable : Bool
deriving Repr, DecidableEq

/-- `parseType` (typeUtils.ts): purely lexical suffix stripping of
`[]` and ` | null`. -/
def parseType (t : String) : TypeDef :=
  if strEndsWith t "[] | null" then
    { single := strDropRight t "[] | null".length, array := true, nullable := true }
  else if strEndsWith t "[]" then
    { single := strDropRight t "[]".length, array := true, nullable := false }
  else if strEndsWith t " | null" then
    { single := strDropRight t " | null".length, array := false, nullable := true }
  else
    { single := t, array := false, nullable := false }

/-- `matchesType` (typeUtils.ts): whether a value is assignable to a type
string. -/
def matchesType (value : JsVal) (tsType : String) : Bool :=
  let expectedType := parseType tsType
  if expectedType.nullable && isNull value then
    true
  else if !expectedType.array && jsTypeof value == expectedType.single then
    true
  else
    expectedType.array
      && isJsArray value
      && (match value with
          | .arr xs => xs.all (fun entry => jsTypeof entry == expectedType.single)
          | _ => false)

/-- `arrayToSingleType` (typeUtils.ts): element type of an array type
string; throws a plain `Error` on non-array types. -/
def arrayToSingleType (tsType : String) : Except JsError String :=
  if strEndsWith tsType "[] | null" then
    .ok (strDropRight tsType "[] | null".length ++ " | null")
  else if strEndsWith tsType "[]" then
    .ok (strDropRight tsType "[]".length)
  else
    .error (.jsError ("[airtable-ts] Not an array type: " ++ tsType))

/-! ### JS Date model

Millisecond timestamps are integers (ECMAScript time values). The Gregorian
calendar conversion follows the standard civil-calendar algorithms; the
formatter covers the years 0–9999 that `Date.prototype.toJSON` renders with
a four-digit year, which covers every value the claims exercise. -/

/-- Truncation toward zero of a rational, as ECMAScript number-to-integer
conversion does. -/
def jsTrunc (q : Rat) : Int :=
  if 0 ≤ q then ⌊q⌋ else ⌈q⌉

/-- Gregorian leap year. -/
def isLeapYear (y : Int) : Bool :=
  (y % 4 == 0 && y % 100 != 0) || y % 400 == 0

/-- Days in a Gregorian month. -/
def daysInMonth (y m : Int) : Int :=
  if m = 2 then (if isLeapYear y then 29 else 28)
  else if m = 4 ∨ m = 6 ∨ m = 9 ∨ m = 11 then 30
  else 31

/-- Days since 1970-01-01 of a civil date (proleptic Gregorian). -/
def daysFromCivil (y m d : Int) : Int :=
  let yAdj := if m ≤ 2 then y - 1 else y
  let era := Int.fdiv yAdj 400
  let yoe := yAdj - era * 400
  let mp := Int.emod (m + 9) 12
  let doy := Int.fdiv (153 * mp + 2) 5 + d - 1
  let doe := yoe * 365 + Int.fdiv yoe 4 - Int.fdiv yoe 100 + doy
  era * 146097 + doe - 719468

/-- Civil date (year, month, day) of a count of days since 1970-01-01. -/
def civilFromDays (z0 : Int) : Int × Int × Int :=
  let z := z0 + 719468
  let era := Int.fdiv z 146097
  let doe := z - era * 146097
  let yoe :=
    Int.fdiv (doe - Int.fdiv doe 1460 + Int.fdiv doe 36524 - Int.fdiv doe 146096) 365
  let y := yoe + era * 400
  let doy := doe - (365 * yoe + Int.fdiv yoe 4 - Int.fdiv yoe 100)
  let mp := Int.fdiv (5 * doy + 2) 153
  let d := doy - Int.fdiv (153 * mp + 2) 5 + 1
  let m := if mp < 10 then mp + 3 else mp - 9
  (if m ≤ 2 then y + 1 else y, m, d)

/-- Zero-pad a natural number to a given width. -/
def padNum (width : Nat) (n : Nat) : String :=
  let s := toString n
  String.mk (List.replicate (width - s.length) '0') ++ s

/-- `Date.prototype.toJSON` on a millisecond timestamp:
`YYYY-MM-DDTHH:mm:ss.sssZ` (years 0–9999). -/
def jsDateToJSON (ms : Int) : String :=
  let days := Int.fdiv ms 86400000
  let msod := (Int.emod ms 86400000).toNat
  let ymd := civilFromDays days
  padNum 4 ymd.1.toNat ++ "-" ++ padNum 2 ymd.2.1.toNat ++ "-" ++
    padNum 2 ymd.2.2.toNat ++ "T" ++ padNum 2 (msod / 3600000) ++ ":" ++
    padNum 2 (msod / 60000 % 60) ++ ":" ++ padNum 2 (msod / 1000 % 60) ++ "." ++
    padNum 3 (msod % 1000) ++ "Z"

/-- Decimal digit value of a character, if it is a digit. -/
def digitVal (c : Char) : Option Nat :=
  if c.isDigit then some (c.toNat - 48) else none

/-- Value of a four-digit group. -/
def digits4 (a b c d : Char) : Option Nat := do
  let a ← digitVal a
  let b ← digitVal b
  let c ← digitVal c
  let d ← digitVal d
  pure (a * 1000 + b * 100 + c * 10 + d)

/-- Value of a two-digit group. -/
def digits2 (a b : Char) : Option Nat := do
  let a ← digitVal a
  let b ← digitVal b
  pure (a * 10 + b)

/-- Value of a three-digit group. -/
def digits3 (a b c : Char) : Option Nat := do
  let a ← digitVal a
  let b ← digitVal b
  let c ← digitVal c
  pure (a * 100 + b * 10 + c)

/-- Millisecond timestamp of a validated civil date and time of day. -/
def msOfCivil (y mo d h mi s f : Nat) : Option Int :=
  if 1 ≤ mo ∧ mo ≤ 12 ∧ 1 ≤ d ∧ (d : Int) ≤ daysInMonth y mo ∧
      h ≤ 23 ∧ mi ≤ 59 ∧ s ≤ 59 then
    some (daysFromCivil y mo d * 86400000 +
      (h * 3600000 + mi * 60000 + s * 1000 + f : Nat))
  else
    none

/-- `Date.parse` on the ISO-8601 forms the library produces and consumes:
the canonical `YYYY-MM-DDTHH:mm:ss.sssZ` and the date-only `YYYY-MM-DD`
(both UTC, as in ECMAScript). Legacy formats the JS parser would also
accept are outside the model and yield `none`. -/
def jsDateParse (s : String) : Option Int :=
  match s.toList with
  | [y1, y2, y3, y4, '-', m1, m2, '-', d1, d2] => do
      let y ← digits4 y1 y2 y3 y4
      let mo ← digits2 m1 m2
      let d ← digits2 d1 d2
      msOfCivil y mo d 0 0 0 0
  | [y1, y2, y3, y4, '-', m1, m2, '-', d1, d2, 'T', h1, h2, ':', mi1, mi2,
      ':', s1, s2, '.', f1, f2, f3, 'Z'] => do
      let y ← digits4 y1 y2 y3 y4
      let mo ← digits2 m1 m2
      let d ← digits2 d1 d2
      let h ← digits2 h1 h2
      let mi ← digits2 mi1 mi2
      let sec ← digits2 s1 s2
      let f ← digits3 f1 f2 f3
      msOfCivil y mo d h mi sec f
  | _ => none

/-- `new Date(v)` on the values the mappers feed it, as a clipped
millisecond timestamp (`none` models an Invalid Date): numbers are
truncated and range-clipped, strings are parsed, `null` and booleans
convert through `Number`. Objects and arrays (whose conversion goes
through `toString`) never reach a `Date` constructor in the mapped code
paths and are modelled as invalid. -/
def jsNewDate : JsVal → Option Int
  | .num q => if q < -8640000000000000 ∨ 8640000000000000 < q then none else some (jsTrunc q)
  | .str s => jsDateParse s
  | .null => some 0
  | .bool b => some (if b then 1 else 0)
  | _ => none

/-! ### Field coercion matrix (src/mapping/fieldMappers.ts) -/

/-- A `{toAirtable, fromAirtable}` coercion pair; either direction may
throw. -/
structure MapperPair : Type where
  toAirtable : JsVal → Except JsError JsVal
  fromAirtable : JsVal → Except JsError JsVal

/-- `fallbackMapperPair`: both directions are `value ?? fallback`. -/
def fallbackMapperPair (toFallback fromFallback : JsVal) : MapperPair :=
  { toAirtable := fun v => .ok (jsNullish v toFallback)
    fromAirtable := fun v => .ok (jsNullish v fromFallback) }

/-- `readonly`: a `toAirtable` that rejects every input with a
schema-validation error. -/
def readonlyThrow (airtableType : String) : JsVal → Except JsError JsVal :=
  fun _ =>
    .error (mkAirtableTsError
      ("Cannot modify a field of type '" ++ airtableType ++ "' as it is read-only.")
      .SCHEMA_VALIDATION none)

/-- `coerce` (fieldMappers.ts): the loose structural coercion used by
lookup/formula/rollup/unknown `fromAirtable` directions, in source branch
order. -/
def coerce (airtableType tsType : String) (value : JsVal) : Except JsError JsVal :=
  let parsedType := parseType tsType
  if !parsedType.array && jsTypeof value == parsedType.single then
    .ok value
  else if parsedType.array && isJsArray value &&
      (match value with
       | .arr xs => xs.all (fun v => jsTypeof v == parsedType.single)
       | _ => false) then
    .ok value
  else if parsedType.nullable &&
      (isUndef value || isNull value ||
        (isJsArray value && (match value with | .arr xs => xs.isEmpty | _ => false))) then
    .ok JsVal.null
  else if parsedType.array && jsTypeof value == parsedType.single then
    .ok (.arr [value])
  else
    match value with
    | .arr xs =>
        if !parsedType.array && xs.length == 1 &&
            jsTypeof (xs.headD .undef) == parsedType.single then
          .ok (xs.headD .undef)
        else if !parsedType.array && xs.length ≠ 1 then
          .error (mkAirtableTsError
            ("Cannot convert array with " ++ toString xs.length ++
              " entries from airtable type '" ++ airtableType ++
              " to TypeScript type '" ++ tsType ++ "'.")
            .SCHEMA_VALIDATION
            (some ("Change the type from '" ++ tsType ++ "' to '" ++ tsType ++
              "[]' in your table definition.")))
        else
          .error (mkAirtableTsError
            ("Cannot convert value from airtable type '" ++ airtableType ++
              "' to '" ++ tsType ++ "', as the Airtable API provided a '" ++
              jsTypeof value ++ "'.")
            .SCHEMA_VALIDATION
            (some "Update the types in your table definition to compatible types for your Airtable base."))
    | _ =>
        .error (mkAirtableTsError
          ("Cannot convert value from airtable type '" ++ airtableType ++
            "' to '" ++ tsType ++ "', as the Airtable API provided a '" ++
            jsTypeof value ++ "'.")
          .SCHEMA_VALIDATION
          (some "Update the types in your table definition to compatible types for your Airtable base."))

/-- `dateTimeMapperPair.toAirtable`: numbers are Unix seconds (scaled to
ms), strings are parsed; invalid dates throw; the result is the canonical
ISO string. -/
def dateTimeToAirtable (value : JsVal) : Except JsError JsVal :=
  if isNull value then .ok JsVal.null
  else
    match (match value with
           | .num q => jsNewDate (.num (q * 1000))
           | v => jsNewDate v) with
    | none =>
        .error (mkAirtableTsError "Invalid date/time value provided."
          .SCHEMA_VALIDATION none)
    | some ms => .ok (.str (jsDateToJSON ms))

/-- `dateTimeMapperPair.fromAirtable`: `null`/`undefined` fold to `null`;
otherwise parse and re-render canonically, throwing on invalid dates. -/
def dateTimeFromAirtable (value : JsVal) : Except JsError JsVal :=
  if isNull value || isUndef value then .ok JsVal.null
  else
    match jsNewDate value with
    | none =>
        .error (mkAirtableTsError "Invalid date/time value recieved from Airtable."
          .SCHEMA_VALIDATION none)
    | some ms => .ok (.str (jsDateToJSON ms))

/-- `dateTimeMapperPair`. -/
def dateTimeMapperPair : MapperPair :=
  { toAirtable := dateTimeToAirtable, fromAirtable := dateTimeFromAirtable }

/-- Read a named string property of an object-shaped value, as the
`!obj || typeof obj !== 'object' || !(k in obj) || typeof obj[k] !== 'string'`
guard chain does: anything that fails the chain yields `null`. -/
def unwrapStringProp (k : String) (v : JsVal) : JsVal :=
  match v with
  | .obj fs =>
      match lookupKey fs k with
      | some (.str s) => .str s
      | _ => JsVal.null
  | _ => JsVal.null

/-- `aiTextMapperPair`: read-only; reading unwraps the `value` property. -/
def aiTextMapperPair : MapperPair :=
  { toAirtable := readonlyThrow "aiText"
    fromAirtable := fun v => .ok (unwrapStringProp "value" v) }

/-- `barcodeMapperPair`: writing wraps in `{text: v}`; reading unwraps the
`text` property. -/
def barcodeMapperPair : MapperPair :=
  { toAirtable := fun v => .ok (.obj [("text", v)])
    fromAirtable := fun v => .ok (unwrapStringProp "text" v) }

/-- `collaboratorMapperPair`: writing wraps in `{id: v}`; reading unwraps
the `id` property. -/
def collaboratorMapperPair : MapperPair :=
  { toAirtable := fun v => .ok (.obj [("id", v)])
    fromAirtable := fun v => .ok (unwrapStringProp "id" v) }

/-- One step of the collaborator/attachment array unwrap:
`'k' in v && typeof v.k === 'string' ? v.k : null`. The JS `in` operator
throws a `TypeError` when its right operand is not an object. -/
def unwrapElemProp (k : String) (v : JsVal) : Except JsError JsVal :=
  match v with
  | .obj fs =>
      match lookupKey fs k with
      | some (.str s) => .ok (.str s)
      | _ => .ok JsVal.null
  | .arr _ => .ok JsVal.null
  | _ =>
      .error (.typeError
        ("Cannot use 'in' operator to search for '" ++ k ++ "' in a non-object"))

/-- `obj?.map(v => ('k' in v && typeof v.k === 'string' ? v.k : null)).filter(Boolean) ?? null`. -/
def unwrapPropArray (k : String) (v : JsVal) : Except JsError JsVal :=
  match v with
  | .null => .ok JsVal.null
  | .undef => .ok JsVal.null
  | .arr xs => do
      let ys ← xs.mapM (unwrapElemProp k)
      .ok (.arr (ys.filter jsTruthy))
  | _ => .error (.typeError ".map is not a function")

/-- `multipleCollaboratorsMapperPair`: writing passes the string array
through unchanged (cast, not converted); reading maps each element to its
`id` property and filters out falsy results. -/
def multipleCollaboratorsMapperPair : MapperPair :=
  { toAirtable := fun v => .ok v
    fromAirtable := unwrapPropArray "id" }

/-- `multipleAttachmentsMapperPair`: read-only; reading maps each element
to its `url` property and filters out falsy results. -/
def multipleAttachmentsMapperPair : MapperPair :=
  { toAirtable := readonlyThrow "multipleAttachments"
    fromAirtable := unwrapPropArray "url" }

/-- `buttonMapperPair`: read-only; reading unwraps the `label` property. -/
def buttonMapperPair : MapperPair :=
  { toAirtable := readonlyThrow "button"
    fromAirtable := fun v => .ok (unwrapStringProp "label" v) }

/-- The `'string | null'` row of the matrix, keyed by remote column type
(with `unknown` as the forward-compatibility entry). -/
def stringOrNullMapper : String → Option MapperPair
  | "url" => some (fallbackMapperPair JsVal.null JsVal.null)
  | "email" => some (fallbackMapperPair JsVal.null JsVal.null)
  | "phoneNumber" => some (fallbackMapperPair JsVal.null JsVal.null)
  | "singleLineText" => some (fallbackMapperPair JsVal.null JsVal.null)
  | "multilineText" => some (fallbackMapperPair JsVal.null JsVal.null)
  | "richText" => some (fallbackMapperPair JsVal.null JsVal.null)
  | "singleSelect" => some (fallbackMapperPair JsVal.null JsVal.null)
  | "aiText" => some aiTextMapperPair
  | "barcode" => some barcodeMapperPair
  | "button" => some buttonMapperPair
  | "singleCollaborator" => some collaboratorMapperPair
  | "multipleCollaborators" =>
      some { toAirtable := fun v =>
               if jsTruthy v then
                 multipleCollaboratorsMapperPair.toAirtable (.arr [v])
               else .ok (.arr [])
             fromAirtable := fun v => do
               let u ← multipleCollaboratorsMapperPair.fromAirtable v
               coerce "multipleCollaborators" "string | null" u }
  | "createdBy" =>
      some { toAirtable := readonlyThrow "createdBy"
             fromAirtable := collaboratorMapperPair.fromAirtable }
  | "lastModifiedBy" =>
      some { toAirtable := readonlyThrow "lastModifiedBy"
             fromAirtable := collaboratorMapperPair.fromAirtable }
  | "multipleAttachments" =>
      some { toAirtable := readonlyThrow "multipleAttachments"
             fromAirtable := fun v => do
               let u ← multipleAttachmentsMapperPair.fromAirtable v
               coerce "multipleAttachments" "string | null" u }
  | "multipleSelects" =>
      some { toAirtable := fun v => .ok (if jsTruthy v then .arr [v] else .arr [])
             fromAirtable := coerce "multipleSelects" "string | null" }
  | "multipleRecordLinks" =>
      some { toAirtable := fun v => .ok (if jsTruthy v then .arr [v] else .arr [])
             fromAirtable := coerce "multipleRecordLinks" "string | null" }
  | "date" =>
      some { toAirtable := fun v => do
               let u ← dateTimeToAirtable v
               .ok (match u with
                    | .str s => .str (strTake s 10)
                    | _ => JsVal.null)
             fromAirtable := dateTimeFromAirtable }
  | "dateTime" => some dateTimeMapperPair
  | "createdTime" => some dateTimeMapperPair
  | "lastModifiedTime" => some dateTimeMapperPair
  | "multipleLookupValues" =>
      some { toAirtable := readonlyThrow "multipleLookupValues"
             fromAirtable := coerce "multipleLookupValues" "string | null" }
  | "externalSyncSource" =>
      some { toAirtable := readonlyThrow "externalSyncSource"
             fromAirtable := coerce "externalSyncSource" "string | null" }
  | "rollup" =>
      some { toAirtable := readonlyThrow "rollup"
             fromAirtable := coerce "rollup" "string | null" }
  | "formula" =>
      some { toAirtable := readonlyThrow "formula"
             fromAirtable := coerce "formula" "string | null" }
  | "unknown" =>
      some { toAirtable := fun v => .ok v
             fromAirtable := coerce "unknown" "string | null" }
  | _ => none

/-- The `'boolean | null'` row of the matrix. -/
def booleanOrNullMapper : String → Option MapperPair
  | "checkbox" => some (fallbackMapperPair JsVal.null JsVal.null)
  | "multipleLookupValues" =>
      some { toAirtable := readonlyThrow "multipleLookupValues"
             fromAirtable := coerce "multipleLookupValues" "boolean | null" }
  | "unknown" =>
      some { toAirtable := fun v => .ok v
             fromAirtable := coerce "unknown" "boolean | null" }
  | _ => none

/-- The `fromAirtable` of the `'number | null'` date/dateTime entries:
fold through the dateTime pair, then re-parse and floor to Unix seconds. -/
def numberDateFromAirtable (value : JsVal) : Except JsError JsVal := do
  let nullableValue ← dateTimeFromAirtable value
  if isNull nullableValue then .ok JsVal.null
  else
    match jsNewDate nullableValue with
    | none =>
        .error (mkAirtableTsError "Invalid date/time value recieved from Airtable."
          .SCHEMA_VALIDATION none)
    | some ms => .ok (.num (Int.fdiv ms 1000))

/-- The `'number | null'` row of the matrix. Numbers on date-family
entries are Unix time in seconds. -/
def numberOrNullMapper : String → Option MapperPair
  | "number" => some (fallbackMapperPair JsVal.null JsVal.null)
  | "rating" => some (fallbackMapperPair JsVal.null JsVal.null)
  | "duration" => some (fallbackMapperPair JsVal.null JsVal.null)
  | "currency" => some (fallbackMapperPair JsVal.null JsVal.null)
  | "percent" => some (fallbackMapperPair JsVal.null JsVal.null)
  | "count" =>
      some { toAirtable := readonlyThrow "count"
             fromAirtable := fun v => .ok (jsNullish v JsVal.null) }
  | "autoNumber" =>
      some { toAirtable := readonlyThrow "autoNumber"
             fromAirtable := fun v => .ok (jsNullish v JsVal.null) }
  | "date" =>
      some { toAirtable := fun v => do
               let u ← dateTimeToAirtable v
               .ok (match u with
                    | .str s => .str (strTake s 10)
                    | _ => JsVal.null)
             fromAirtable := numberDateFromAirtable }
  | "dateTime" =>
      some { toAirtable := dateTimeToAirtable
             fromAirtable := numberDateFromAirtable }
  | "createdTime" =>
      some { toAirtable := dateTimeToAirtable
             fromAirtable := numberDateFromAirtable }
  | "lastModifiedTime" =>
      some { toAirtable := dateTimeToAirtable
             fromAirtable := numberDateFromAirtable }
  | "multipleLookupValues" =>
      some { toAirtable := readonlyThrow "multipleLookupValues"
             fromAirtable := coerce "multipleLookupValues" "number | null" }
  | "rollup" =>
      some { toAirtable := readonlyThrow "rollup"
             fromAirtable := coerce "rollup" "number | null" }
  | "formula" =>
      some { toAirtable := readonlyThrow "formula"
             fromAirtable := coerce "formula" "number | null" }
  | "unknown" =>
      some { toAirtable := fun v => .ok v
             fromAirtable := coerce "unknown" "number | null" }
  | _ => none

/-- The `'string[] | null'` row of the matrix. The `formula` entry's
`fromAirtable` labels its errors with `multipleLookupValues`, as the
source does. -/
def stringArrayOrNullMapper : String → Option MapperPair
  | "multipleSelects" => some (fallbackMapperPair (.arr []) (.arr []))
  | "multipleRecordLinks" => some (fallbackMapperPair (.arr []) (.arr []))
  | "multipleCollaborators" => some multipleCollaboratorsMapperPair
  | "multipleAttachments" => some multipleAttachmentsMapperPair
  | "multipleLookupValues" =>
      some { toAirtable := fun _ =>
               .error (mkAirtableTsError
                 "Lookup fields are read-only and cannot be modified."
                 .SCHEMA_VALIDATION none)
             fromAirtable := coerce "multipleLookupValues" "string[] | null" }
  | "formula" =>
      some { toAirtable := fun _ =>
               .error (mkAirtableTsError
                 "Formula fields are read-only and cannot be modified."
                 .SCHEMA_VALIDATION none)
             fromAirtable := coerce "multipleLookupValues" "string[] | null" }
  | "unknown" =>
      some { toAirtable := fun v => .ok v
             fromAirtable := coerce "unknown" "string[] | null" }
  | _ => none

/-- The derivation of the non-nullable `string` row from the
`'string | null'` row: same `toAirtable`; reading maps a `null` outcome
to an error for the four listed remote types, and to `''` otherwise. -/
def stringFromNullable (airtableType : String) (p : MapperPair) : MapperPair :=
  { toAirtable := p.toAirtable
    fromAirtable := fun v => do
      let nullableValue ← p.fromAirtable v
      if isNull nullableValue &&
          (airtableType == "multipleRecordLinks" || airtableType == "dateTime" ||
            airtableType == "createdTime" || airtableType == "lastModifiedTime") then
        .error (mkAirtableTsError
          ("Cannot convert null value to string for field type '" ++ airtableType ++ "'.")
          .SCHEMA_VALIDATION
          (some "Provide a non-null value for this field or update your schema to allow null values."))
      else
        .ok (jsNullish nullableValue (.str "")) }

/-- The derivation of the non-nullable `boolean` row: a `null` outcome
folds to `false`. -/
def booleanFromNullable (p : MapperPair) : MapperPair :=
  { toAirtable := p.toAirtable
    fromAirtable := fun v => do
      let nullableValue ← p.fromAirtable v
      .ok (jsNullish nullableValue (.bool false)) }

/-- The derivation of the non-nullable `number` row: a `null` outcome is
an error. -/
def numberFromNullable (airtableType : String) (p : MapperPair) : MapperPair :=
  { toAirtable := p.toAirtable
    fromAirtable := fun v => do
      let nullableValue ← p.fromAirtable v
      if isNull nullableValue then
        .error (mkAirtableTsError
          ("Cannot convert null value to number for field type '" ++ airtableType ++ "'.")
          .SCHEMA_VALIDATION
          (some "Provide a non-null value for this field or update your schema to allow null values."))
      else
        .ok nullableValue }

/-- The derivation of the non-nullable `string[]` row: a `null` outcome
folds to `[]`. -/
def stringArrayFromNullable (p : MapperPair) : MapperPair :=
  { toAirtable := p.toAirtable
    fromAirtable := fun v => do
      let nullableValue ← p.fromAirtable v
      .ok (jsNullish nullableValue (.arr [])) }

/-- `fieldMappers`: the two-level coercion matrix, TypeScript type string
first, remote column type second. Only the eight listed TypeScript types
have a row. -/
def fieldMappers (tsType airtableType : String) : Option MapperPair :=
  match tsType with
  | "string | null" => stringOrNullMapper airtableType
  | "string" => (stringOrNullMapper airtableType).map (stringFromNullable airtableType)
  | "boolean | null" => booleanOrNullMapper airtableType
  | "boolean" => (booleanOrNullMapper airtableType).map booleanFromNullable
  | "number | null" => numberOrNullMapper airtableType
  | "number" => (numberOrNullMapper airtableType).map (numberFromNullable airtableType)
  | "string[] | null" => stringArrayOrNullMapper airtableType
  | "string[]" => (stringArrayOrNullMapper airtableType).map stringArrayFromNullable
  | _ => none

/-- Whether `fieldMappers` has a row for a TypeScript type string. -/
def hasMapperRow (tsType : String) : Bool :=
  tsType == "string | null" || tsType == "string" ||
    tsType == "boolean | null" || tsType == "boolean" ||
    tsType == "number | null" || tsType == "number" ||
    tsType == "string[] | null" || tsType == "string[]"

/-- `getMapper` (recordMapper.ts): row lookup, then column lookup, with
the `unknown` entry as fallback for unrecognized remote types (the
console advisory carries no semantics and is not modelled). -/
def getMapper (tsType airtableType : String) : Except JsError MapperPair :=
  if !hasMapperRow tsType then
    .error (mkAirtableTsError
      ("No mapper exists for TypeScript type '" ++ tsType ++ "'.")
      .SCHEMA_VALIDATION
      (some "Check that you are using a supported TypeScript type in your schema definition."))
  else
    match fieldMappers tsType airtableType with
    | some p => .ok p
    | none =>
        match fieldMappers tsType "unknown" with
        | some p => .ok p
        | none =>
            .error (mkAirtableTsError
              ("Cannot map Airtable type '" ++ airtableType ++
                "' to TypeScript type '" ++ tsType ++ "'.")
              .SCHEMA_VALIDATION
              (some "Check that your schema definition uses TypeScript types that are compatible with the Airtable field types."))

/-! ### Table definitions and the name resolver (src/mapping/nameMapper.ts,
src/mapping/typeUtils.ts) -/

/-- A field mapping value: one remote column identifier, or an ordered
list of identifiers (for array-typed fields distributed over several
columns). -/
inductive MappingValue : Type where
  | single : String → MappingValue
  | multi : List String → MappingValue
deriving Repr, DecidableEq

/-- A table definition (`Table<T>` in typeUtils.ts): schema is an ordered
association of application field name to type string; mappings is the
optional association of application field name to remote identifiers. -/
structure Table : Type where
  name : String
  baseId : String
  tableId : String
  schema : List (String × String)
  mappings : Option (List (String × MappingValue))
deriving Repr

/-- `table.mappings?.[f]`. -/
def lookupMapping (table : Table) (f : String) : Option MappingValue :=
  match table.mappings with
  | none => none
  | some ms => lookupKey ms f

/-- The `if (!mappingToAirtable)` guard: absent mappings, and the falsy
empty-string identifier, take the identity-mapping branch (an empty list
of identifiers is an object and therefore truthy). -/
def mappingFalsy : Option MappingValue → Bool
  | none => true
  | some (.single id) => id == ""
  | some (.multi _) => false

/-- `JSON.stringify` of a string array, as used in nameMapper error
messages. -/
def jsonStringifyIds (ids : List String) : String :=
  "[" ++ String.intercalate "," (ids.map (fun s => "\"" ++ s ++ "\"")) ++ "]"

/-- The per-field body of `mapRecordFieldNamesTsToAirtable`: the list of
`(remote identifier, value)` pairs a single application field contributes,
or a thrown error. A field key absent from the input object (`in` check)
contributes nothing. -/
def mapFieldTsToAirtable (table : Table) (item : JsRec) (f tsType : String) :
    Except JsError (List (String × JsVal)) :=
  let mappingToAirtable := lookupMapping table f
  if !hasKey item f then
    .ok []
  else
    let value := getKey item f
    if mappingFalsy mappingToAirtable then
      .ok [(f, value)]
    else
      match mappingToAirtable with
      | some (.multi ids) =>
          if isNull value then
            if strEndsWith tsType "| null" then
              .ok (ids.map (fun airtableFieldName => (airtableFieldName, JsVal.null)))
            else
              .error (mkAirtableTsError
                ("Received null for non-nullable field '" ++ f ++ "' (" ++
                  jsonStringifyIds ids ++ ") with type '" ++ tsType ++
                  "' in table '" ++ table.name ++ "' (" ++ table.tableId ++
                  "). This should never happen in normal operation as it should be caught before this point.")
                .SCHEMA_VALIDATION none)
          else
            match value with
            | .arr vs =>
                if vs.length ≠ ids.length then
                  .error (mkAirtableTsError
                    ("Array length mismatch for field '" ++ f ++ "' (" ++
                      jsonStringifyIds ids ++ ") in table '" ++ table.name ++
                      "' (" ++ table.tableId ++ "): received " ++
                      toString vs.length ++ " values but had mappings for " ++
                      toString ids.length ++ ".")
                    .SCHEMA_VALIDATION
                    (some "Ensure the array length matches the number of mapped fields in your table definition."))
                else
                  .ok (ids.zip vs)
            | _ =>
                .error (mkAirtableTsError
                  ("Expected an array for field '" ++ f ++ "' (" ++
                    jsonStringifyIds ids ++ ") in table '" ++ table.name ++
                    "' (" ++ table.tableId ++ "), but received " ++
                    jsTypeof value ++ ".")
                  .SCHEMA_VALIDATION none)
      | some (.single m) => .ok [(m, value)]
      | none => .ok [(f, value)]

/-- Sequential processing of the schema entries by
`mapRecordFieldNamesTsToAirtable`; the first thrown error aborts. -/
def mapFieldsTsToAirtable (table : Table) (item : JsRec) :
    List (String × String) → Except JsError (List (String × JsVal))
  | [] => .ok []
  | (f, tsType) :: rest => do
      let chunk ← mapFieldTsToAirtable table item f tsType
      let restChunks ← mapFieldsTsToAirtable table item rest
      .ok (chunk ++ restChunks)

/-- `mapRecordFieldNamesTsToAirtable` (nameMapper.ts): maps an application
record (possibly partial) to remote-identifier keys, then assigns `id`
from the input record. -/
def mapRecordFieldNamesTsToAirtable (table : Table) (item : JsRec) :
    Except JsError JsRec := do
  let entries ← mapFieldsTsToAirtable table item table.schema
  .ok (setKey (fromEntries entries) "id" (getKey item "id"))

/-- `mapRecordFieldNamesAirtableToTs` (nameMapper.ts): maps a record keyed
by remote identifiers back to application field names, folding
multi-column mappings into arrays, then assigns `id`. -/
def mapRecordFieldNamesAirtableToTs (table : Table) (tsRecord : JsRec) : JsRec :=
  let entries := table.schema.map (fun ft =>
    let mappingToAirtable := lookupMapping table ft.1
    if mappingFalsy mappingToAirtable then
      (ft.1, getKey tsRecord ft.1)
    else
      match mappingToAirtable with
      | some (.multi ids) =>
          (ft.1, JsVal.arr (ids.map (fun airtableFieldName => getKey tsRecord airtableFieldName)))
      | some (.single m) => (ft.1, getKey tsRecord m)
      | none => (ft.1, getKey tsRecord ft.1))
  setKey (fromEntries entries) "id" (getKey tsRecord "id")

/-- The per-field body of `airtableFieldNameTsTypes` (typeUtils.ts): the
`(remote identifier, type string)` pairs contributed by one schema entry;
multi-column mappings contribute one entry per identifier at the element
type. -/
def fieldNameTsTypesEntries (table : Table) (f tsType : String) :
    Except JsError (List (String × String)) :=
  let mappingToAirtable := lookupMapping table f
  if mappingFalsy mappingToAirtable then
    .ok [(f, tsType)]
  else
    match mappingToAirtable with
    | some (.multi ids) => do
        let single ← arrayToSingleType tsType
        .ok (ids.map (fun airtableFieldName => (airtableFieldName, single)))
    | some (.single m) => .ok [(m, tsType)]
    | none => .ok [(f, tsType)]

/-- Sequential processing of the schema by `airtableFieldNameTsTypes`. -/
def fieldNameTsTypesList (table : Table) :
    List (String × String) → Except JsError (List (String × String))
  | [] => .ok []
  | (f, tsType) :: rest => do
      let chunk ← fieldNameTsTypesEntries table f tsType
      let restChunks ← fieldNameTsTypesList table rest
      .ok (chunk ++ restChunks)

/-- `airtableFieldNameTsTypes` (typeUtils.ts): the remote-identifier-keyed
type map of a table definition. -/
def airtableFieldNameTsTypes (table : Table) :
    Except JsError (List (String × String)) := do
  let entries ← fieldNameTsTypesList table table.schema
  .ok (fromEntries entries)

/-! ### Record mapper (src/mapping/recordMapper.ts) -/

/-- A remote column definition `{id, name, type}`. -/
structure FieldDef : Type where
  id : String
  name : String
  type : String
deriving Repr, DecidableEq

/-- `fields.find(f => f.id === k || f.name === k)`: resolve a column by id
or name. -/
def findFieldDef (fields : List FieldDef) (k : String) : Option FieldDef :=
  fields.find? (fun fd => fd.id == k || fd.name == k)

/-- A fetched Airtable record: its id, its cell values keyed by column
name, and the column definitions of its table (`record._table.fields`). -/
structure AirtableRecord : Type where
  id : String
  fields : JsRec
  tableFields : List FieldDef
deriving Repr

/-- The reverse mapping lookup used in error messages:
`Object.entries(table.mappings).find(e => e[1] === f)?.[0]` (strict
equality never matches a list-valued mapping). -/
def tsNameFor (table : Table) (f : String) : Option String :=
  match table.mappings with
  | none => none
  | some ms =>
      (ms.find? (fun e =>
        match e.2 with
        | .single id => id == f
        | .multi _ => false)).map (fun e => e.1)

/-- The `tsName ? tsName + ' (' + f + ')' : f` formatting of a field
reference in error messages (a falsy empty name falls back to `f`). -/
def fieldRefText (table : Table) (f : String) : String :=
  match tsNameFor table f with
  | some tsName => if tsName == "" then f else tsName ++ " (" ++ f ++ ")"
  | none => f

/-- The per-field read step of `mapRecordTypeAirtableToTs`, before
warning-mode handling: resolve the column (a missing column is a
schema-validation error), read the cell by column name, and apply
`fromAirtable`, prefixing mapper errors with the field reference. -/
def readFieldFromAirtable (table : Table) (record : AirtableRecord)
    (f tsType : String) : Except JsError JsVal :=
  match findFieldDef record.tableFields f with
  | none =>
      .error (mkAirtableTsError
        ("Field '" ++ f ++
          "' does not exist in the table definition. This error should not happen in normal operation.")
        .SCHEMA_VALIDATION none)
  | some fieldDefinition =>
      let value := getKey record.fields fieldDefinition.name
      match (do
        let mapper ← getMapper tsType fieldDefinition.type
        mapper.fromAirtable value) with
      | .ok v => .ok v
      | .error e =>
          .error (prependError e
            ("Failed to map field " ++ fieldRefText table f ++ " from Airtable"))

/-- Sequential field processing of `mapRecordTypeAirtableToTs`. In
`'warning'` read-validation mode a failed field is recorded as a warning
and its value set to `undefined`; otherwise the failure is thrown. -/
def mapFieldsAirtableToTs (table : Table) (record : AirtableRecord)
    (warningMode : Bool) :
    List (String × String) → Except JsError (List (String × JsVal) × List JsError)
  | [] => .ok ([], [])
  | (f, tsType) :: rest =>
      match readFieldFromAirtable table record f tsType with
      | .ok v => do
          let r ← mapFieldsAirtableToTs table record warningMode rest
          .ok ((f, v) :: r.1, r.2)
      | .error e =>
          if warningMode then do
            let r ← mapFieldsAirtableToTs table record warningMode rest
            .ok ((f, JsVal.undef) :: r.1, e :: r.2)
          else
            .error e

/-- `mapRecordTypeAirtableToTs` (recordMapper.ts): coerces a fetched
record to the given type map without renaming, assigning `id` last;
returns the accumulated warnings of `'warning'` mode alongside. -/
def mapRecordTypeAirtableToTs (table : Table) (tsTypes : List (String × String))
    (record : AirtableRecord) (warningMode : Bool) :
    Except JsError (JsRec × List JsError) := do
  let r ← mapFieldsAirtableToTs table record warningMode tsTypes
  .ok (setKey (fromEntries r.1) "id" (.str record.id), r.2)

/-- `mapRecordFromAirtable` (recordMapper.ts). The result carries the
mapped record together with the list of arguments passed to the
`onWarning` callback (one call per accumulated warning, each qualified
with the table/record context; no calls when no callback is supplied).
The callback runs inside a catch-all: its outcome is discarded, so the
result does not depend on it. Any error thrown by the pipeline itself is
qualified with the same context. -/
def mapRecordFromAirtable (table : Table) (record : AirtableRecord)
    (readValidation : String)
    (onWarning : Option (JsError → Except JsError Unit)) :
    Except JsError (JsRec × List JsError) :=
  let qualifyError := fun e =>
    prependError e
      ("Failed to map record from Airtable format for table '" ++ table.name ++
        "' (" ++ table.tableId ++ ") and record " ++ record.id)
  match (do
    let tsTypes ← airtableFieldNameTsTypes table
    let r ← mapRecordTypeAirtableToTs table tsTypes record
      (readValidation == "warning")
    let invocations :=
      match onWarning with
      | none => []
      | some cb =>
          r.2.map (fun w =>
            let qualified := qualifyError w
            let _ := cb qualified
            qualified)
    .ok (mapRecordFieldNamesAirtableToTs table r.1, invocations)) with
  | .ok result => .ok result
  | .error e => .error (qualifyError e)

/-- The per-field body of `mapRecordTypeTsToAirtable`: skip keys absent
from the input (`in` check), validate against the type string, resolve
the column (missing column is a resource-not-found error), and apply
`toAirtable`, prefixing mapper errors with the field reference. -/
def writeFieldToAirtable (table : Table) (airtableFields : List FieldDef)
    (tsRecord : JsRec) (f tsType : String) :
    Except JsError (List (String × JsVal)) :=
  let value := getKey tsRecord f
  if !hasKey tsRecord f then
    .ok []
  else if !matchesType value tsType then
    .error (mkAirtableTsError
      ("Type mismatch for field '" ++ f ++ "': expected " ++ tsType ++
        " but got a " ++ jsTypeof value ++ ".")
      .SCHEMA_VALIDATION
      (some "Ensure the value matches the expected type in your schema definition."))
  else
    match findFieldDef airtableFields f with
    | none =>
        .error (mkAirtableTsError
          ("Field " ++ fieldRefText table f ++ " does not exist in the Airtable table.")
          .RESOURCE_NOT_FOUND
          (some "Verify that the field exists in your Airtable base and that you are using the correct field name or ID."))
    | some fieldDefinition =>
        match (do
          let mapper ← getMapper tsType fieldDefinition.type
          mapper.toAirtable value) with
        | .ok av => .ok [(f, av)]
        | .error e =>
            .error (prependError e
              ("Failed to map field " ++ fieldRefText table f ++ " to Airtable"))

/-- Sequential field processing of `mapRecordTypeTsToAirtable`. -/
def writeFieldsToAirtable (table : Table) (airtableFields : List FieldDef)
    (tsRecord : JsRec) :
    List (String × String) → Except JsError (List (String × JsVal))
  | [] => .ok []
  | (f, tsType) :: rest => do
      let chunk ← writeFieldToAirtable table airtableFields tsRecord f tsType
      let restChunks ← writeFieldsToAirtable table airtableFields tsRecord rest
      .ok (chunk ++ restChunks)

/-- `mapRecordTypeTsToAirtable` (recordMapper.ts): coerces an application
record (possibly partial) to a remote field set without renaming,
assigning `id` from the input last. -/
def mapRecordTypeTsToAirtable (table : Table) (tsTypes : List (String × String))
    (tsRecord : JsRec) (airtableFields : List FieldDef) :
    Except JsError JsRec := do
  let entries ← writeFieldsToAirtable table airtableFields tsRecord tsTypes
  .ok (setKey (fromEntries entries) "id" (getKey tsRecord "id"))

/-- `mapRecordToAirtable` (recordMapper.ts): name mapping, type-map
construction and type mapping, with every thrown error qualified with the
table context. -/
def mapRecordToAirtable (table : Table) (item : JsRec)
    (airtableFields : List FieldDef) : Except JsError JsRec :=
  match (do
    let mappedItem ← mapRecordFieldNamesTsToAirtable table item
    let tsTypes ← airtableFieldNameTsTypes table
    mapRecordTypeTsToAirtable table tsTypes mappedItem airtableFields) with
  | .ok fieldSet => .ok fieldSet
  | .error e =>
      .error (prependError e
        ("Failed to map record to Airtable format for table '" ++ table.name ++
          "' (" ++ table.tableId ++ ")"))

/-! ### Base-schema cache (src/getAirtableTsTable.ts) -/

/-- A cache entry: fetch timestamp (`at` in the source; `at` is reserved
here) and the fetched base schema (whose payload is irrelevant to the
caching behaviour and kept opaque). -/
structure CacheEntry (σ : Type) : Type where
  fetchedAt : Int
  data : σ
deriving Repr, DecidableEq

/-- One call of `getAirtableBaseSchema`, as a transition on the cache
map: a fresh-enough entry is returned without fetching; otherwise the
supplied transport result is used, the whole cache is cleared when it
holds more than 100 entries, and the new entry is stored. The boolean
reports whether a transport fetch happened. -/
def getAirtableBaseSchemaStep {σ : Type} (cache : List (String × CacheEntry σ))
    (baseId : String) (now ttl : Int) (fetched : σ) :
    σ × List (String × CacheEntry σ) × Bool :=
  match lookupKey cache baseId with
  | some fromCache =>
      if now - fromCache.fetchedAt < ttl then
        (fromCache.data, cache, false)
      else
        let cleared := if cache.length > 100 then [] else cache
        (fetched, setKey cleared baseId ⟨now, fetched⟩, true)
  | none =>
      let cleared := if cache.length > 100 then [] else cache
      (fetched, setKey cleared baseId ⟨now, fetched⟩, true)

/-! ### Derived notions and concrete fixtures used by the theorems -/

/-- The error kind of a modelled error, when it is an `AirtableTsError`. -/
def errKind : JsError → Option ErrorType
  | .airtableTs _ t => some t
  | _ => none

/-- The composite of one coercion pair in both directions:
`fromAirtable (toAirtable v)`. -/
def roundTrip (tsType airtableType : String) (v : JsVal) :
    Except JsError JsVal := do
  let mapper ← getMapper tsType airtableType
  let a ← mapper.toAirtable v
  mapper.fromAirtable a

/-- The resolved `fromAirtable` direction of one coercion pair. -/
def fromRemote (tsType airtableType : String) (v : JsVal) :
    Except JsError JsVal := do
  let mapper ← getMapper tsType airtableType
  mapper.fromAirtable v

/-- The resolved `toAirtable` direction of one coercion pair. -/
def toRemote (tsType airtableType : String) (v : JsVal) :
    Except JsError JsVal := do
  let mapper ← getMapper tsType airtableType
  mapper.toAirtable v

/-- The remote column identifiers one application field occupies: its own
name when it has no (truthy) mapping, the mapped identifier, or the
mapped identifier list. -/
def fieldRemoteIds (table : Table) (f : String) : List String :=
  let mappingToAirtable := lookupMapping table f
  if mappingFalsy mappingToAirtable then [f]
  else
    match mappingToAirtable with
    | some (.multi ids) => ids
    | some (.single m) => [m]
    | none => [f]

/-- The (TypeScript type, remote column type) pairs of the matrix whose
`toAirtable` direction is read-only. -/
def readonlyPairs : List (String × String) :=
  [("string", "aiText"), ("string", "button"), ("string", "createdBy"),
    ("string", "lastModifiedBy"), ("string", "multipleAttachments"),
    ("string", "multipleLookupValues"), ("string", "externalSyncSource"),
    ("string", "rollup"), ("string", "formula"),
    ("string | null", "aiText"), ("string | null", "button"),
    ("string | null", "createdBy"), ("string | null", "lastModifiedBy"),
    ("string | null", "multipleAttachments"),
    ("string | null", "multipleLookupValues"),
    ("string | null", "externalSyncSource"), ("string | null", "rollup"),
    ("string | null", "formula"),
    ("boolean", "multipleLookupValues"), ("boolean | null", "multipleLookupValues"),
    ("number", "count"), ("number", "autoNumber"),
    ("number", "multipleLookupValues"), ("number", "rollup"),
    ("number", "formula"),
    ("number | null", "count"), ("number | null", "autoNumber"),
    ("number | null", "multipleLookupValues"), ("number | null", "rollup"),
    ("number | null", "formula"),
    ("string[]", "multipleAttachments"), ("string[]", "multipleLookupValues"),
    ("string[]", "formula"),
    ("string[] | null", "multipleAttachments"),
    ("string[] | null", "multipleLookupValues"), ("string[] | null", "formula")]

/-- The twelve type strings of the `TsTypeString` grammar. -/
def tsTypeStrings : List String :=
  ["string", "string | null", "number", "number | null", "boolean",
    "boolean | null", "string[]", "string[] | null", "number[]",
    "number[] | null", "boolean[]", "boolean[] | null"]

/-- The text-like remote types whose scalar string pairs are plain
`value ?? fallback` passthroughs. -/
def textLikeAirtableTypes : List String :=
  ["url", "email", "phoneNumber", "singleLineText", "multilineText",
    "richText", "singleSelect"]

/-- The direct numeric remote types. -/
def numericAirtableTypes : List String :=
  ["number", "rating", "duration", "currency", "percent"]

/-- Run `n` cache insertions for `n` distinct bases (ids `app0`, `app1`,
…) at time 0, starting from an empty cache. -/
def cacheAfterDistinctBases (n : Nat) : List (String × CacheEntry String) :=
  (List.range n).foldl
    (fun cache i =>
      (getAirtableBaseSchemaStep cache ("app" ++ toString i) 0 120000 "schema").2.1)
    []

/-- The table of the warning-mode read fixture: three fields, the third
nullable and mapped to a remote column that no longer exists. -/
def warningFixtureTable : Table :=
  { name := "example", baseId := "appExample123", tableId := "tblExample456",
    schema := [("field1", "string"), ("field2", "string"),
      ("deletedField", "string | null")],
    mappings := some [("field1", .single "fldAbc123"),
      ("field2", .single "fldDef456"),
      ("deletedField", .single "fldDeleted789")] }

/-- The fetched record of the warning-mode fixture: the mapped column
`fldDeleted789` has been deleted from the remote table. -/
def warningFixtureRecord : AirtableRecord :=
  { id := "recExample001",
    fields := [("field1", .str "value1"), ("field2", .str "value2")],
    tableFields := [⟨"fldAbc123", "field1", "singleLineText"⟩,
      ⟨"fldDef456", "field2", "singleLineText"⟩] }

/-- The warning produced by the warning-mode fixture, qualified with the
record context. -/
def warningFixtureWarning : JsError :=
  .airtableTs
    ("Failed to map record from Airtable format for table 'example' (tblExample456) and record recExample001: " ++
      "Field 'fldDeleted789' does not exist in the table definition. This error should not happen in normal operation.")
    .SCHEMA_VALIDATION

/-- A table whose only field is mapped to a remote column that the
Airtable table does not contain (the write-direction fixture). -/
def missingFieldTable : Table :=
  { name := "missing-field-example", baseId := "app123", tableId := "tbl101",
    schema := [("nonExistent", "string")],
    mappings := some [("nonExistent", .single "fld123")] }

/-- A table with no schema fields. -/
def emptyTable : Table :=
  { name := "t", baseId := "app", tableId := "tbl", schema := [], mappings := none }

/-- The four-field mapped table of the partial-update fixture. -/
def partialFixtureTable : Table :=
  { name := "example", baseId := "app123", tableId := "tbl456",
    schema := [("a", "string"), ("b", "number"), ("c", "boolean"), ("d", "string")],
    mappings := some [("a", .single "fld123"), ("b", .single "fld456"),
      ("c", .single "fld789"), ("d", .single "fld012")] }

/-- A partial record for `partialFixtureTable` containing only `c`. -/
def partialFixtureItem : JsRec :=
  [("id", .str "recZ"), ("c", .bool false)]

/-! ## Theorems

Supporting lemmas come first; the claim theorems follow, one per claim. -/

theorem lookupKey_setKey {α : Type} (r : List (String × α)) (key k : String) (v : α) :
    lookupKey (setKey r key v) k = if key = k then some v else lookupKey r k := by
  induction r with
  | nil =>
      by_cases h : key = k <;> simp [setKey, lookupKey, h]
  | cons hd tl ih =>
      obtain ⟨a, b⟩ := hd
      by_cases hak : a = key
      · subst hak
        by_cases hk : a = k <;> simp [setKey, lookupKey, hk]
      · by_cases hk : a = k
        · subst hk
          rw [show setKey ((a, b) :: tl) key v = (a, b) :: setKey tl key v from by
            simp [setKey, hak]]
          rw [if_neg (fun h => hak h.symm)]
          simp [lookupKey]
        · simp [setKey, lookupKey, hak, hk, ih]

theorem hasKey_setKey {α : Type} (r : List (String × α)) (key k : String) (v : α) :
    hasKey (setKey r key v) k = true ↔ key = k ∨ hasKey r k = true := by
  by_cases h : key = k <;> simp [hasKey, lookupKey_setKey, h]

theorem hasKey_setKey_self {α : Type} (r : List (String × α)) (k : String) (v : α) :
    hasKey (setKey r k v) k = true := by
  simp [hasKey, lookupKey_setKey]

theorem getKey_setKey_self (r : JsRec) (k : String) (v : JsVal) :
    getKey (setKey r k v) k = v := by
  simp [getKey, lookupKey_setKey]

theorem hasKey_foldl_setKey {α : Type} (es : List (String × α))
    (acc : List (String × α)) (k : String) :
    hasKey (es.foldl (fun r kv => setKey r kv.1 kv.2) acc) k = true ↔
      hasKey acc k = true ∨ ∃ v, (k, v) ∈ es := by
  induction es generalizing acc with
  | nil => simp
  | cons hd tl ih =>
      obtain ⟨a, b⟩ := hd
      simp only [List.foldl_cons, ih, hasKey_setKey, List.mem_cons, Prod.mk.injEq]
      constructor
      · rintro ((rfl | h) | ⟨v, hv⟩)
        · exact Or.inr ⟨b, Or.inl ⟨rfl, rfl⟩⟩
        · exact Or.inl h
        · exact Or.inr ⟨v, Or.inr hv⟩
      · rintro (h | ⟨v, ⟨rfl, rfl⟩ | hv⟩)
        · exact Or.inl (Or.inr h)
        · exact Or.inl (Or.inl rfl)
        · exact Or.inr ⟨v, hv⟩

theorem hasKey_fromEntries {α : Type} (es : List (String × α)) (k : String) :
    hasKey (fromEntries es) k = true ↔ ∃ v, (k, v) ∈ es := by
  rw [fromEntries, hasKey_foldl_setKey]
  simp [hasKey, lookupKey]

theorem except_bind_ok {ε α β : Type} (e : Except ε α) (f : α → Except ε β) (b : β)
    (h : e.bind f = Except.ok b) : ∃ a, e = Except.ok a ∧ f a = Except.ok b := by
  cases e with
  | error err => simp [Except.bind] at h
  | ok a => exact ⟨a, rfl, by simpa [Except.bind] using h⟩

theorem mapRecordFieldNamesTsToAirtable_id (table : Table) (item : JsRec)
    (result : JsRec) (h : mapRecordFieldNamesTsToAirtable table item = .ok result) :
    hasKey result "id" = true ∧ getKey result "id" = getKey item "id" := by
  unfold mapRecordFieldNamesTsToAirtable at h
  obtain ⟨entries, -, h2⟩ := except_bind_ok _ _ _ h
  cases h2
  exact ⟨hasKey_setKey_self _ _ _, getKey_setKey_self _ _ _⟩

theorem mapRecordTypeTsToAirtable_id (table : Table) (tsTypes : List (String × String))
    (tsRecord : JsRec) (airtableFields : List FieldDef) (result : JsRec)
    (h : mapRecordTypeTsToAirtable table tsTypes tsRecord airtableFields = .ok result) :
    hasKey result "id" = true ∧ getKey result "id" = getKey tsRecord "id" := by
  unfold mapRecordTypeTsToAirtable at h
  obtain ⟨entries, -, h2⟩ := except_bind_ok _ _ _ h
  cases h2
  exact ⟨hasKey_setKey_self _ _ _, getKey_setKey_self _ _ _⟩

/-- C10: every field set produced by the to-remote mapping — whether by
the name resolver, the type mapper, or their composition
`mapRecordToAirtable` — contains an `id` key copied from the input
record's `id` (`undefined` when the input omits `id`), regardless of
which schema fields the partial input contains. -/
theorem c10_field_set_always_has_id :
    (∀ (table : Table) (item : JsRec) (result : JsRec),
      mapRecordFieldNamesTsToAirtable table item = .ok result →
      hasKey result "id" = true ∧ getKey result "id" = getKey item "id") ∧
    (∀ (table : Table) (tsTypes : List (String × String)) (tsRecord : JsRec)
      (airtableFields : List FieldDef) (result : JsRec),
      mapRecordTypeTsToAirtable table tsTypes tsRecord airtableFields = .ok result →
      hasKey result "id" = true ∧ getKey result "id" = getKey tsRecord "id") ∧
    (∀ (table : Table) (item : JsRec) (airtableFields : List FieldDef)
      (result : JsRec),
      mapRecordToAirtable table item airtableFields = .ok result →
      hasKey result "id" = true ∧ getKey result "id" = getKey item "id") := by
  refine ⟨mapRecordFieldNamesTsToAirtable_id, mapRecordTypeTsToAirtable_id, ?_⟩
  intro table item airtableFields result h
  unfold mapRecordToAirtable at h
  cases hrun : (do
      let mappedItem ← mapRecordFieldNamesTsToAirtable table item
      let tsTypes ← airtableFieldNameTsTypes table
      mapRecordTypeTsToAirtable table tsTypes mappedItem airtableFields :
      Except JsError JsRec) with
  | error e => rw [hrun] at h; exact absurd h (by simp)
  | ok fieldSet =>
      rw [hrun] at h
      cases h
      obtain ⟨mappedItem, hm, h2⟩ := except_bind_ok _ _ _ hrun
      obtain ⟨tsTypes, -, h3⟩ := except_bind_ok _ _ _ h2
      obtain ⟨hk, hv⟩ := mapRecordTypeTsToAirtable_id _ _ _ _ _ h3
      obtain ⟨-, hv2⟩ := mapRecordFieldNamesTsToAirtable_id _ _ _ hm
      exact ⟨hk, hv.trans hv2⟩

/-- C10 witness: the empty partial record maps to a field set containing
`id` with value `undefined`. -/
theorem c10_field_set_always_has_id_witness :
    hasKey [("id", JsVal.undef)] "id" = true ∧
      getKey [("id", JsVal.undef)] "id" = getKey ([] : JsRec) "id" :=
  c10_field_set_always_has_id.1 emptyTable [] [("id", JsVal.undef)] rfl

/-- C7: writing an application field mapped to an ordered identifier list
throws a schema-validation error naming both lengths when the array
length differs from the mapping length, and assigns positionally when
they agree; with a one-field schema the whole name mapper behaves the
same way. -/
theorem c7_arity_mismatch :
    (∀ (table : Table) (item : JsRec) (f tsType : String) (ids : List String)
      (vs : List JsVal),
      lookupMapping table f = some (.multi ids) →
      hasKey item f = true → getKey item f = .arr vs →
      vs.length ≠ ids.length →
      mapFieldTsToAirtable table item f tsType = .error (mkAirtableTsError
        ("Array length mismatch for field '" ++ f ++ "' (" ++
          jsonStringifyIds ids ++ ") in table '" ++ table.name ++ "' (" ++
          table.tableId ++ "): received " ++ toString vs.length ++
          " values but had mappings for " ++ toString ids.length ++ ".")
        .SCHEMA_VALIDATION
        (some "Ensure the array length matches the number of mapped fields in your table definition."))) ∧
    (∀ (table : Table) (item : JsRec) (f tsType : String) (ids : List String)
      (vs : List JsVal),
      lookupMapping table f = some (.multi ids) →
      hasKey item f = true → getKey item f = .arr vs →
      vs.length = ids.length →
      mapFieldTsToAirtable table item f tsType = .ok (ids.zip vs)) ∧
    (∀ (table : Table) (item : JsRec) (f tsType : String) (ids : List String)
      (vs : List JsVal),
      table.schema = [(f, tsType)] →
      lookupMapping table f = some (.multi ids) →
      hasKey item f = true → getKey item f = .arr vs →
      vs.length ≠ ids.length →
      mapRecordFieldNamesTsToAirtable table item = .error (mkAirtableTsError
        ("Array length mismatch for field '" ++ f ++ "' (" ++
          jsonStringifyIds ids ++ ") in table '" ++ table.name ++ "' (" ++
          table.tableId ++ "): received " ++ toString vs.length ++
          " values but had mappings for " ++ toString ids.length ++ ".")
        .SCHEMA_VALIDATION
        (some "Ensure the array length matches the number of mapped fields in your table definition."))) := by
  have harr : ∀ (vs : List JsVal), isNull (JsVal.arr vs) = false := by
    intro vs; rfl
  have hmain : ∀ (table : Table) (item : JsRec) (f tsType : String)
      (ids : List String) (vs : List JsVal),
      lookupMapping table f = some (.multi ids) →
      hasKey item f = true → getKey item f = .arr vs →
      mapFieldTsToAirtable table item f tsType =
        if vs.length ≠ ids.length then
          .error (mkAirtableTsError
            ("Array length mismatch for field '" ++ f ++ "' (" ++
              jsonStringifyIds ids ++ ") in table '" ++ table.name ++ "' (" ++
              table.tableId ++ "): received " ++ toString vs.length ++
              " values but had mappings for " ++ toString ids.length ++ ".")
            .SCHEMA_VALIDATION
            (some "Ensure the array length matches the number of mapped fields in your table definition."))
        else .ok (ids.zip vs) := by
    intro table item f tsType ids vs hmap hin hval
    unfold mapFieldTsToAirtable
    rw [hmap, hin, hval]
    simp [mappingFalsy, harr]
  refine ⟨?_, ?_, ?_⟩
  · intro table item f tsType ids vs hmap hin hval hne
    rw [hmain table item f tsType ids vs hmap hin hval, if_pos hne]
  · intro table item f tsType ids vs hmap hin hval heq
    rw [hmain table item f tsType ids vs hmap hin hval, if_neg (by omega)]
  · intro table item f tsType ids vs hschema hmap hin hval hne
    unfold mapRecordFieldNamesTsToAirtable mapFieldsTsToAirtable
    rw [hschema]
    simp only [mapFieldsTsToAirtable]
    rw [hmain table item f tsType ids vs hmap hin hval, if_pos hne]
    rfl

/-- C7 witness: an array of three values against two mappings throws the
error naming 3 and 2; two values assign positionally. -/
theorem c7_arity_mismatch_witness :
    mapFieldTsToAirtable
        ⟨"t", "app1", "tblA", [("d", "number[]")], some [("d", .multi ["fldD", "fldE"])]⟩
        [("d", .arr [.num 1, .num 2, .num 3])] "d" "number[]" =
      .error (mkAirtableTsError
        ("Array length mismatch for field '" ++ "d" ++ "' (" ++
          jsonStringifyIds ["fldD", "fldE"] ++ ") in table '" ++ "t" ++ "' (" ++
          "tblA" ++ "): received " ++ toString ([JsVal.num 1, .num 2, .num 3].length) ++
          " values but had mappings for " ++ toString (["fldD", "fldE"].length) ++ ".")
        .SCHEMA_VALIDATION
        (some "Ensure the array length matches the number of mapped fields in your table definition.")) ∧
    mapFieldTsToAirtable
        ⟨"t", "app1", "tblA", [("d", "number[]")], some [("d", .multi ["fldD", "fldE"])]⟩
        [("d", .arr [.num 1, .num 2])] "d" "number[]" =
      .ok [("fldD", .num 1), ("fldE", .num 2)] :=
  ⟨c7_arity_mismatch.1 _ _ "d" "number[]" ["fldD", "fldE"] [.num 1, .num 2, .num 3]
      rfl rfl rfl (by decide),
    c7_arity_mismatch.2.1 _ _ "d" "number[]" ["fldD", "fldE"] [.num 1, .num 2]
      rfl rfl rfl rfl⟩

/-- C5 counterexample: a `ResourceNotFound`-kind error (a mapped field
missing from the Airtable table) is not passed through unmodified — the
orchestration boundary prepends its table-context breadcrumb to it. -/
theorem c5_prefixing_counterexample :
    mapRecordToAirtable missingFieldTable [("nonExistent", .str "test")] [] =
      .error (.airtableTs
        "Failed to map record to Airtable format for table 'missing-field-example' (tbl101): Field nonExistent (fld123) does not exist in the Airtable table. Suggestion: Verify that the field exists in your Airtable base and that you are using the correct field name or ID."
        .RESOURCE_NOT_FOUND) ∧
    ErrorType.RESOURCE_NOT_FOUND ≠ ErrorType.SCHEMA_VALIDATION := by
  exact ⟨by rfl, by decide⟩

/-- C5 (amended): `prependError` prefixes every `AirtableTsError`
regardless of its kind (preserving the kind), and only errors that are
not `AirtableTsError` instances pass through unmodified. -/
theorem c5_prefixing_amended :
    ∀ (e : JsError) (pre : String),
      (isAirtableTsError e = true →
        errorMessage (prependError e pre) = pre ++ ": " ++ errorMessage e ∧
        errKind (prependError e pre) = errKind e) ∧
      (isAirtableTsError e = false → prependError e pre = e) := by
  intro e pre
  cases e <;> simp [isAirtableTsError, prependError, errorMessage, errKind]

/-- C5 witness: a concrete `ApiError`-kind `AirtableTsError` is prefixed
with its kind preserved; a concrete plain error passes through. -/
theorem c5_prefixing_amended_witness :
    (errorMessage (prependError (.airtableTs "m" .API_ERROR) "p") =
        "p" ++ ": " ++ errorMessage (.airtableTs "m" .API_ERROR) ∧
      errKind (prependError (.airtableTs "m" .API_ERROR) "p") =
        errKind (.airtableTs "m" .API_ERROR)) ∧
    prependError (.jsError "boom") "p" = .jsError "boom" :=
  ⟨(c5_prefixing_amended (.airtableTs "m" .API_ERROR) "p").1 rfl,
    (c5_prefixing_amended (.jsError "boom") "p").2 rfl⟩

set_option maxRecDepth 100000 in
/-- C2 counterexample: after fetching 101 distinct bases the cache still
holds all 101 entries — the 101st insertion cleared nothing — and a
subsequent request for the first base is served from the cache without a
transport fetch. -/
theorem c2_cache_counterexample :
    (cacheAfterDistinctBases 101).length = 101 ∧
    hasKey (cacheAfterDistinctBases 101) "app0" = true ∧
    (getAirtableBaseSchemaStep (cacheAfterDistinctBases 101) "app0" 0 120000
      "fresh").2.2 = false := by
  refine ⟨by decide, by decide, by decide⟩

/-- C2 (amended): the unconditional clear happens on the insertion that
finds more than 100 bases already cached — the 102nd distinct base, not
the 101st. On such an insertion the new cache holds only the new entry
and any previously cached base re-fetches; at or below 100 entries the
insertion preserves the existing entries. -/
theorem c2_cache_ceiling_amended {σ : Type} (cache : List (String × CacheEntry σ))
    (baseId : String) (now ttl : Int) (fetched : σ)
    (hmiss : lookupKey cache baseId = none) :
    (cache.length > 100 →
      (getAirtableBaseSchemaStep cache baseId now ttl fetched).2.1 =
        [(baseId, ⟨now, fetched⟩)] ∧
      ∀ (b : String) (now2 ttl2 : Int) (f2 : σ), b ≠ baseId →
        (getAirtableBaseSchemaStep
          (getAirtableBaseSchemaStep cache baseId now ttl fetched).2.1
          b now2 ttl2 f2).2.2 = true) ∧
    (cache.length ≤ 100 →
      (getAirtableBaseSchemaStep cache baseId now ttl fetched).2.1 =
        setKey cache baseId ⟨now, fetched⟩) := by
  constructor
  · intro hover
    have h1 : (getAirtableBaseSchemaStep cache baseId now ttl fetched).2.1 =
        [(baseId, ⟨now, fetched⟩)] := by
      simp [getAirtableBaseSchemaStep, hmiss, if_pos hover, setKey]
    refine ⟨h1, ?_⟩
    intro b now2 ttl2 f2 hb
    rw [h1]
    unfold getAirtableBaseSchemaStep
    rw [show lookupKey [(baseId, (⟨now, fetched⟩ : CacheEntry σ))] b = none from by
      simp [lookupKey, Ne.symm hb]]
  · intro hle
    have hnot : ¬cache.length > 100 := by omega
    simp [getAirtableBaseSchemaStep, hmiss, hnot]

set_option maxRecDepth 100000 in
/-- C2 witness: inserting a 102nd distinct base into a cache of 101
distinct bases leaves exactly that one entry. -/
theorem c2_cache_ceiling_amended_witness :
    (getAirtableBaseSchemaStep (cacheAfterDistinctBases 101) "appX" 5 120000
      "s").2.1 = [("appX", ⟨5, "s"⟩)] :=
  ((c2_cache_ceiling_amended (cacheAfterDistinctBases 101) "appX" 5 120000 "s"
    (by decide)).1 (by decide)).1

/-- C1: in `'warning'` read-validation mode a field whose mapped remote
column was deleted is set to `undefined` in the returned record — not to
the type-appropriate empty default the specification (and the repository's
own tests) prescribe: here the nullable `deletedField` comes back as
`undefined`, not `null`. Processing continues, nothing is thrown, the
warning callback receives exactly one qualified warning, and a callback
that itself throws leaves the result unchanged; in `'error'` mode the same
read throws. -/
theorem c1_warning_mode_sets_undefined :
    mapRecordFromAirtable warningFixtureTable warningFixtureRecord "warning"
        (some (fun _ => .ok ())) =
      .ok ([("field1", .str "value1"), ("field2", .str "value2"),
            ("deletedField", JsVal.undef), ("id", .str "recExample001")],
        [warningFixtureWarning]) ∧
    mapRecordFromAirtable warningFixtureTable warningFixtureRecord "warning"
        (some (fun _ => .error (.jsError "onWarning callback failed!"))) =
      .ok ([("field1", .str "value1"), ("field2", .str "value2"),
            ("deletedField", JsVal.undef), ("id", .str "recExample001")],
        [warningFixtureWarning]) ∧
    mapRecordFromAirtable warningFixtureTable warningFixtureRecord "error" none =
      .error warningFixtureWarning ∧
    JsVal.undef ≠ JsVal.null :=
  ⟨rfl, rfl, rfl, fun h => nomatch h⟩

/-- C4: reading a link-type remote column into a non-array string field
unwraps a singleton array; the empty array folds to `null` for the
nullable type and throws for the non-nullable type; and an array with
more than one element always throws, for both nullabilities, naming the
arity in the error. -/
theorem c4_singleton_link_read :
    (∀ s : String,
      fromRemote "string" "multipleRecordLinks" (.arr [.str s]) = .ok (.str s)) ∧
    (∀ s : String,
      fromRemote "string | null" "multipleRecordLinks" (.arr [.str s]) = .ok (.str s)) ∧
    fromRemote "string | null" "multipleRecordLinks" (.arr []) = .ok JsVal.null ∧
    fromRemote "string" "multipleRecordLinks" (.arr []) =
      .error (mkAirtableTsError
        "Cannot convert null value to string for field type 'multipleRecordLinks'."
        .SCHEMA_VALIDATION
        (some "Provide a non-null value for this field or update your schema to allow null values.")) ∧
    (∀ (x y : JsVal) (zs : List JsVal),
      fromRemote "string" "multipleRecordLinks" (.arr (x :: y :: zs)) =
        .error (mkAirtableTsError
          ("Cannot convert array with " ++ toString (zs.length + 2) ++
            " entries from airtable type '" ++ "multipleRecordLinks" ++
            " to TypeScript type '" ++ "string | null" ++ "'.")
          .SCHEMA_VALIDATION
          (some ("Change the type from '" ++ "string | null" ++ "' to '" ++
            "string | null" ++ "[]' in your table definition."))) ∧
      fromRemote "string | null" "multipleRecordLinks" (.arr (x :: y :: zs)) =
        .error (mkAirtableTsError
          ("Cannot convert array with " ++ toString (zs.length + 2) ++
            " entries from airtable type '" ++ "multipleRecordLinks" ++
            " to TypeScript type '" ++ "string | null" ++ "'.")
          .SCHEMA_VALIDATION
          (some ("Change the type from '" ++ "string | null" ++ "' to '" ++
            "string | null" ++ "[]' in your table definition.")))) := by
  have hcoerce : ∀ (x y : JsVal) (zs : List JsVal),
      coerce "multipleRecordLinks" "string | null" (.arr (x :: y :: zs)) =
        .error (mkAirtableTsError
          ("Cannot convert array with " ++ toString (zs.length + 2) ++
            " entries from airtable type '" ++ "multipleRecordLinks" ++
            " to TypeScript type '" ++ "string | null" ++ "'.")
          .SCHEMA_VALIDATION
          (some ("Change the type from '" ++ "string | null" ++ "' to '" ++
            "string | null" ++ "[]' in your table definition."))) := by
    intro x y zs
    rfl
  have hwrap : ∀ (v : JsVal) (e : JsError),
      coerce "multipleRecordLinks" "string | null" v = .error e →
      fromRemote "string" "multipleRecordLinks" v = .error e := by
    intro v e h
    have hred : fromRemote "string" "multipleRecordLinks" v =
        (stringFromNullable "multipleRecordLinks"
          { toAirtable := fun w => .ok (if jsTruthy w then .arr [w] else .arr [])
            fromAirtable := coerce "multipleRecordLinks" "string | null" }).fromAirtable
          v := rfl
    rw [hred]
    unfold stringFromNullable
    simp only [h]
    rfl
  exact ⟨fun s => rfl, fun s => rfl, rfl, rfl, fun x y zs =>
    ⟨hwrap _ _ (hcoerce x y zs), hcoerce x y zs⟩⟩

/-- C8: every coercion pair whose `toAirtable` direction is read-only
rejects every input value with a schema-validation `AirtableTsError`. -/
theorem c8_readonly_rejection :
    ∀ p ∈ readonlyPairs, ∀ v : JsVal, ∃ msg : String,
      toRemote p.1 p.2 v = .error (.airtableTs msg .SCHEMA_VALIDATION) := by
  intro p hp v
  fin_cases hp <;> exact ⟨_, rfl⟩

/-- C8 witness: the `string`/`formula` pair rejects a concrete write. -/
theorem c8_readonly_rejection_witness :
    ∃ msg : String,
      toRemote "string" "formula" (.str "x") =
        .error (.airtableTs msg .SCHEMA_VALIDATION) :=
  c8_readonly_rejection ("string", "formula") (by decide) (.str "x")

theorem parseType_string : parseType "string" = ⟨"string", false, false⟩ := by decide

theorem parseType_string_null :
    parseType "string | null" = ⟨"string", false, true⟩ := by decide

theorem parseType_number : parseType "number" = ⟨"number", false, false⟩ := by decide

theorem parseType_number_null :
    parseType "number | null" = ⟨"number", false, true⟩ := by decide

theorem parseType_boolean : parseType "boolean" = ⟨"boolean", false, false⟩ := by decide

theorem parseType_boolean_null :
    parseType "boolean | null" = ⟨"boolean", false, true⟩ := by decide

theorem parseType_string_arr : parseType "string[]" = ⟨"string", true, false⟩ := by decide

theorem parseType_string_arr_null :
    parseType "string[] | null" = ⟨"string", true, true⟩ := by decide

theorem parseType_number_arr : parseType "number[]" = ⟨"number", true, false⟩ := by decide

theorem parseType_number_arr_null :
    parseType "number[] | null" = ⟨"number", true, true⟩ := by decide

theorem parseType_boolean_arr :
    parseType "boolean[]" = ⟨"boolean", true, false⟩ := by decide

theorem parseType_boolean_arr_null :
    parseType "boolean[] | null" = ⟨"boolean", true, true⟩ := by decide

theorem matchesType_eq_or (v : JsVal) (t : String) :
    matchesType v t =
      (((parseType t).nullable && isNull v) ||
        (!(parseType t).array && jsTypeof v == (parseType t).single) ||
        ((parseType t).array && isJsArray v &&
          (match v with
           | .arr xs => xs.all (fun e => jsTypeof e == (parseType t).single)
           | _ => false))) := by
  cases hA : ((parseType t).nullable && isNull v) <;>
    cases hB : (!(parseType t).array && jsTypeof v == (parseType t).single) <;>
      simp [matchesType, hA, hB]

/-- C9: over the full type-string grammar, `undefined` satisfies no type
descriptor; `null` satisfies exactly the nullable ones; a non-`null`
value satisfies a non-array descriptor exactly when its `typeof` equals
the base type; and an array descriptor is satisfied exactly by `null`
(when nullable) or an array all of whose elements have the base type
(including the empty array). -/
theorem c9_matches_type :
    ∀ t ∈ tsTypeStrings,
      matchesType JsVal.undef t = false ∧
      matchesType JsVal.null t = (parseType t).nullable ∧
      (∀ v : JsVal, v ≠ JsVal.null → (parseType t).array = false →
        matchesType v t = (jsTypeof v == (parseType t).single)) ∧
      (∀ v : JsVal, (parseType t).array = true →
        (matchesType v t = true ↔
          (v = JsVal.null ∧ (parseType t).nullable = true) ∨
          ∃ xs, v = JsVal.arr xs ∧ ∀ x ∈ xs, jsTypeof x = (parseType t).single)) := by
  intro t ht
  fin_cases ht <;>
    refine ⟨by decide, by decide, fun v hv harr => ?_, fun v harr => ?_⟩ <;>
      first
        | exact absurd harr (by decide)
        | (cases v <;> first | rfl | exact absurd rfl hv)
        | (rw [matchesType_eq_or]
           cases v <;>
             simp [parseType_string, parseType_string_null, parseType_number,
               parseType_number_null, parseType_boolean, parseType_boolean_null,
               parseType_string_arr, parseType_string_arr_null, parseType_number_arr,
               parseType_number_arr_null, parseType_boolean_arr,
               parseType_boolean_arr_null, isNull, isJsArray, jsTypeof,
               List.all_eq_true])

/-- C9 witness: `undefined` fails the nullable `'string | null'`
descriptor at a concrete instantiation of the theorem. -/
theorem c9_matches_type_witness :
    matchesType JsVal.undef "string | null" = false :=
  (c9_matches_type "string | null" (by decide)).1

theorem mapFieldTsToAirtable_absent (table : Table) (item : JsRec)
    (f tsType : String) (h : hasKey item f = false) :
    mapFieldTsToAirtable table item f tsType = .ok [] := by
  unfold mapFieldTsToAirtable
  simp [h]

theorem mapFieldTsToAirtable_mem (table : Table) (item : JsRec)
    (f tsType : String) (chunk : List (String × JsVal))
    (h : mapFieldTsToAirtable table item f tsType = .ok chunk)
    (k : String) (v : JsVal) (hm : (k, v) ∈ chunk) :
    hasKey item f = true ∧ k ∈ fieldRemoteIds table f := by
  by_cases hin : hasKey item f = true
  · refine ⟨hin, ?_⟩
    unfold mapFieldTsToAirtable at h
    rw [hin] at h
    simp only [Bool.not_true, Bool.false_eq_true, if_false] at h
    unfold fieldRemoteIds
    cases hfalsy : mappingFalsy (lookupMapping table f) with
    | true =>
        rw [hfalsy] at h
        simp only [if_true] at h
        cases h
        simp at hm
        simp [hfalsy, hm.1]
    | false =>
        rw [hfalsy] at h
        simp only [Bool.false_eq_true, if_false, hfalsy]
        cases hmap : lookupMapping table f with
        | none => rw [hmap] at hfalsy; simp [mappingFalsy] at hfalsy
        | some mv =>
            rw [hmap] at h
            cases mv with
            | single m =>
                cases h
                simp at hm
                simp [hm.1]
            | multi ids =>
                simp only
                cases hnull : isNull (getKey item f) with
                | true =>
                    rw [hnull] at h
                    simp only [if_true] at h
                    cases hends : strEndsWith tsType "| null" with
                    | true =>
                        rw [hends] at h
                        simp only [if_true] at h
                        cases h
                        simp at hm
                        obtain ⟨a, ha, rfl, -⟩ := hm
                        exact ha
                    | false => rw [hends] at h; simp at h
                | false =>
                    rw [hnull] at h
                    simp only [Bool.false_eq_true, if_false] at h
                    cases hval : getKey item f with
                    | arr vs =>
                        rw [hval] at h
                        by_cases hlen : vs.length ≠ ids.length
                        · simp [hlen] at h
                        · simp only [hlen, if_false] at h
                          cases h
                          exact (List.of_mem_zip hm).1
                    | null => rw [hval] at h; simp at h
                    | undef => rw [hval] at h; simp at h
                    | str s => rw [hval] at h; simp at h
                    | num n => rw [hval] at h; simp at h
                    | bool b => rw [hval] at h; simp at h
                    | obj fs => rw [hval] at h; simp at h
  · rw [mapFieldTsToAirtable_absent table item f tsType (by simpa using hin)] at h
    cases h
    simp at hm

theorem mapFieldsTsToAirtable_mem (table : Table) (item : JsRec)
    (l : List (String × String)) (entries : List (String × JsVal))
    (h : mapFieldsTsToAirtable table item l = .ok entries)
    (k : String) (v : JsVal) (hm : (k, v) ∈ entries) :
    ∃ f tsType, (f, tsType) ∈ l ∧ hasKey item f = true ∧
      k ∈ fieldRemoteIds table f := by
  induction l generalizing entries with
  | nil =>
      unfold mapFieldsTsToAirtable at h
      cases h
      simp at hm
  | cons hd tl ih =>
      obtain ⟨f, tsType⟩ := hd
      unfold mapFieldsTsToAirtable at h
      obtain ⟨chunk, hc, h2⟩ := except_bind_ok _ _ _ h
      obtain ⟨restChunks, hr, h3⟩ := except_bind_ok _ _ _ h2
      cases h3
      rcases List.mem_append.mp hm with hmem | hmem
      · obtain ⟨hin, hids⟩ := mapFieldTsToAirtable_mem table item f tsType chunk hc k v hmem
        exact ⟨f, tsType, List.mem_cons_self _ _, hin, hids⟩
      · obtain ⟨f2, t2, hl, hin, hids⟩ := ih restChunks hr hmem
        exact ⟨f2, t2, List.mem_cons_of_mem _ hl, hin, hids⟩

/-- C6: a partial to-remote mapping writes only remote identifiers
belonging to application fields present in the input (plus `id`): a field
key absent from the input object (by the `in` containment check)
contributes nothing at all — its remote columns are neither written nor
nulled. -/
theorem c6_partial_update_omission :
    (∀ (table : Table) (item : JsRec) (result : JsRec),
      mapRecordFieldNamesTsToAirtable table item = .ok result →
      ∀ k, hasKey result k = true →
        k = "id" ∨ ∃ f tsType, (f, tsType) ∈ table.schema ∧
          hasKey item f = true ∧ k ∈ fieldRemoteIds table f) ∧
    (∀ (table : Table) (item : JsRec) (f tsType : String),
      hasKey item f = false →
      mapFieldTsToAirtable table item f tsType = .ok []) := by
  refine ⟨?_, mapFieldTsToAirtable_absent⟩
  intro table item result h k hk
  unfold mapRecordFieldNamesTsToAirtable at h
  obtain ⟨entries, he, h2⟩ := except_bind_ok _ _ _ h
  cases h2
  rcases (hasKey_setKey _ _ _ _).mp hk with rfl | hk2
  · exact Or.inl rfl
  · obtain ⟨v, hv⟩ := (hasKey_fromEntries _ _).mp hk2
    obtain ⟨f, tsType, hmem, hin, hids⟩ :=
      mapFieldsTsToAirtable_mem table item table.schema entries he k v hv
    exact Or.inr ⟨f, tsType, hmem, hin, hids⟩

/-- C6 witness: mapping the partial record containing only `c` against
the four-field table, the written key `fld789` is accounted for by the
present field `c`. -/
theorem c6_partial_update_omission_witness :
    "fld789" = "id" ∨ ∃ f tsType,
      (f, tsType) ∈ partialFixtureTable.schema ∧
      hasKey partialFixtureItem f = true ∧
      "fld789" ∈ fieldRemoteIds partialFixtureTable f :=
  c6_partial_update_omission.1 partialFixtureTable partialFixtureItem
    [("fld789", .bool false), ("id", .str "recZ")] rfl "fld789" (by decide)

theorem roundTrip_decomp (tsType airtableType : String) (v w r : JsVal)
    (h1 : toRemote tsType airtableType v = .ok w)
    (h2 : fromRemote tsType airtableType w = .ok r) :
    roundTrip tsType airtableType v = .ok r := by
  have hr : roundTrip tsType airtableType v =
      (getMapper tsType airtableType).bind (fun mapper =>
        (mapper.toAirtable v).bind (fun a => mapper.fromAirtable a)) := rfl
  have ht : toRemote tsType airtableType v =
      (getMapper tsType airtableType).bind (fun mapper => mapper.toAirtable v) := rfl
  have hf : fromRemote tsType airtableType w =
      (getMapper tsType airtableType).bind (fun mapper => mapper.fromAirtable w) := rfl
  rw [ht] at h1
  rw [hf] at h2
  rw [hr]
  cases hm : getMapper tsType airtableType with
  | error e =>
      rw [hm] at h1
      exact absurd h1 (fun hh => Except.noConfusion hh)
  | ok mapper =>
      rw [hm] at h1 h2
      simp only [Except.bind] at h1 h2 ⊢
      rw [h1]
      exact h2

theorem jsTrunc_intCast (t : Int) : jsTrunc (t : Rat) = t := by
  unfold jsTrunc
  split
  · exact Int.floor_intCast t
  · exact Int.ceil_intCast t

theorem jsNewDate_num_eval (q : Rat) (t : Int) (hmul : q = (t : Rat))
    (hrange : ¬((t : Rat) < -8640000000000000 ∨ (8640000000000000 : Rat) < (t : Rat))) :
    jsNewDate (.num q) = some t := by
  subst hmul
  show (if ((t : Rat) < -8640000000000000 ∨ (8640000000000000 : Rat) < (t : Rat))
      then none else some (jsTrunc ((t : Rat)))) = some t
  rw [if_neg hrange, jsTrunc_intCast]

theorem dateTimeToAirtable_num_eval (q : Rat) (t : Int) (hmul : q * 1000 = (t : Rat))
    (hrange : ¬((t : Rat) < -8640000000000000 ∨ (8640000000000000 : Rat) < (t : Rat))) :
    dateTimeToAirtable (.num q) = .ok (.str (jsDateToJSON t)) := by
  have hred : dateTimeToAirtable (.num q) =
      (match jsNewDate (.num (q * 1000)) with
        | none =>
            (Except.error (mkAirtableTsError "Invalid date/time value provided."
              .SCHEMA_VALIDATION none) : Except JsError JsVal)
        | some ms => .ok (.str (jsDateToJSON ms))) := rfl
  rw [hred, jsNewDate_num_eval (q * 1000) t hmul hrange]

theorem numberDateToAirtable_eval (q : Rat) (t : Int) (hmul : q * 1000 = (t : Rat))
    (hrange : ¬((t : Rat) < -8640000000000000 ∨ (8640000000000000 : Rat) < (t : Rat))) :
    toRemote "number | null" "date" (.num q) =
      .ok (.str (strTake (jsDateToJSON t) 10)) := by
  have hred : toRemote "number | null" "date" (.num q) =
      (dateTimeToAirtable (.num q)).bind
        (fun u => (Except.ok (match u with
          | JsVal.str s => JsVal.str (strTake s 10)
          | _ => JsVal.null) : Except JsError JsVal)) := rfl
  rw [hred, dateTimeToAirtable_num_eval q t hmul hrange]
  rfl

/-- C3 counterexample: the round-trip claim fails outside its stated
modulo clauses. An empty string through the nullable select pair comes
back `null`; `null` through the nullable select-array pair comes back
`[]`; a `multipleCollaborators` id faults with a `TypeError` (that pair's
write direction passes bare id strings through unchanged, while the read
direction expects `{id}` objects); a
whole-second Unix time through the number/`date` pair is truncated to the
day, not the second; an already-canonical ISO string through the
string/`date` pair loses its time of day; and an arbitrary string — which
matches `'string | null'` — throws on the dateTime pair instead of round
tripping. -/
theorem c3_roundtrip_counterexample :
    (matchesType (.str "") "string | null" = true ∧
      roundTrip "string | null" "multipleSelects" (.str "") = .ok JsVal.null ∧
      JsVal.null ≠ JsVal.str "") ∧
    (matchesType JsVal.null "string[] | null" = true ∧
      roundTrip "string[] | null" "multipleSelects" JsVal.null = .ok (.arr []) ∧
      JsVal.arr [] ≠ JsVal.null) ∧
    roundTrip "string | null" "multipleCollaborators" (.str "recX") =
      .error (.typeError
        "Cannot use 'in' operator to search for 'id' in a non-object") ∧
    roundTrip "number | null" "date" (.num 3600) = .ok (.num 0) ∧
    roundTrip "string | null" "date" (.str "1970-01-01T01:00:00.000Z") =
      .ok (.str "1970-01-01T00:00:00.000Z") ∧
    (matchesType (.str "hello") "string | null" = true ∧
      roundTrip "string | null" "dateTime" (.str "hello") =
        .error (mkAirtableTsError "Invalid date/time value provided."
          .SCHEMA_VALIDATION none)) :=
  ⟨⟨by decide, rfl, fun h => nomatch h⟩,
    ⟨by decide, rfl, fun h => nomatch h⟩,
    rfl,
    roundTrip_decomp "number | null" "date" (.num 3600) (.str "1970-01-01") (.num 0)
      ((numberDateToAirtable_eval 3600 3600000 (by norm_num)
        (by push_cast; norm_num)).trans (by rfl))
      rfl,
    rfl, by decide, rfl⟩

theorem matches_string_inv (v : JsVal) (h : matchesType v "string" = true) :
    ∃ s, v = .str s := by
  cases v with
  | str s => exact ⟨s, rfl⟩
  | null => exact Bool.noConfusion (show false = true from h)
  | undef => exact Bool.noConfusion (show false = true from h)
  | num n => exact Bool.noConfusion (show false = true from h)
  | bool b => exact Bool.noConfusion (show false = true from h)
  | arr xs => exact Bool.noConfusion (show false = true from h)
  | obj fs => exact Bool.noConfusion (show false = true from h)

theorem matches_string_null_inv (v : JsVal)
    (h : matchesType v "string | null" = true) :
    v = JsVal.null ∨ ∃ s, v = .str s := by
  cases v with
  | null => exact Or.inl rfl
  | str s => exact Or.inr ⟨s, rfl⟩
  | undef => exact Bool.noConfusion (show false = true from h)
  | num n => exact Bool.noConfusion (show false = true from h)
  | bool b => exact Bool.noConfusion (show false = true from h)
  | arr xs => exact Bool.noConfusion (show false = true from h)
  | obj fs => exact Bool.noConfusion (show false = true from h)

theorem matches_number_inv (v : JsVal) (h : matchesType v "number" = true) :
    ∃ q, v = .num q := by
  cases v with
  | num q => exact ⟨q, rfl⟩
  | null => exact Bool.noConfusion (show false = true from h)
  | undef => exact Bool.noConfusion (show false = true from h)
  | str s => exact Bool.noConfusion (show false = true from h)
  | bool b => exact Bool.noConfusion (show false = true from h)
  | arr xs => exact Bool.noConfusion (show false = true from h)
  | obj fs => exact Bool.noConfusion (show false = true from h)

theorem matches_number_null_inv (v : JsVal)
    (h : matchesType v "number | null" = true) :
    v = JsVal.null ∨ ∃ q, v = .num q := by
  cases v with
  | null => exact Or.inl rfl
  | num q => exact Or.inr ⟨q, rfl⟩
  | undef => exact Bool.noConfusion (show false = true from h)
  | str s => exact Bool.noConfusion (show false = true from h)
  | bool b => exact Bool.noConfusion (show false = true from h)
  | arr xs => exact Bool.noConfusion (show false = true from h)
  | obj fs => exact Bool.noConfusion (show false = true from h)

theorem matches_boolean_inv (v : JsVal) (h : matchesType v "boolean" = true) :
    ∃ b, v = .bool b := by
  cases v with
  | bool b => exact ⟨b, rfl⟩
  | null => exact Bool.noConfusion (show false = true from h)
  | undef => exact Bool.noConfusion (show false = true from h)
  | str s => exact Bool.noConfusion (show false = true from h)
  | num n => exact Bool.noConfusion (show false = true from h)
  | arr xs => exact Bool.noConfusion (show false = true from h)
  | obj fs => exact Bool.noConfusion (show false = true from h)

theorem matches_boolean_null_inv (v : JsVal)
    (h : matchesType v "boolean | null" = true) :
    v = JsVal.null ∨ ∃ b, v = .bool b := by
  cases v with
  | null => exact Or.inl rfl
  | bool b => exact Or.inr ⟨b, rfl⟩
  | undef => exact Bool.noConfusion (show false = true from h)
  | str s => exact Bool.noConfusion (show false = true from h)
  | num n => exact Bool.noConfusion (show false = true from h)
  | arr xs => exact Bool.noConfusion (show false = true from h)
  | obj fs => exact Bool.noConfusion (show false = true from h)

theorem matches_string_arr_inv (v : JsVal) (h : matchesType v "string[]" = true) :
    ∃ xs, v = .arr xs ∧ xs.all (fun e => jsTypeof e == "string") = true := by
  cases v with
  | arr xs => exact ⟨xs, rfl, h⟩
  | null => exact Bool.noConfusion (show false = true from h)
  | undef => exact Bool.noConfusion (show false = true from h)
  | str s => exact Bool.noConfusion (show false = true from h)
  | num n => exact Bool.noConfusion (show false = true from h)
  | bool b => exact Bool.noConfusion (show false = true from h)
  | obj fs => exact Bool.noConfusion (show false = true from h)

theorem matches_string_arr_null_inv (v : JsVal)
    (h : matchesType v "string[] | null" = true) :
    v = JsVal.null ∨
      ∃ xs, v = .arr xs ∧ xs.all (fun e => jsTypeof e == "string") = true := by
  cases v with
  | null => exact Or.inl rfl
  | arr xs => exact Or.inr ⟨xs, rfl, h⟩
  | undef => exact Bool.noConfusion (show false = true from h)
  | str s => exact Bool.noConfusion (show false = true from h)
  | num n => exact Bool.noConfusion (show false = true from h)
  | bool b => exact Bool.noConfusion (show false = true from h)
  | obj fs => exact Bool.noConfusion (show false = true from h)

theorem stringFromNullable_ok_str (airtableType : String) (p : MapperPair)
    (v : JsVal) (s : String) (h : p.fromAirtable v = .ok (.str s)) :
    (stringFromNullable airtableType p).fromAirtable v = .ok (.str s) := by
  unfold stringFromNullable
  simp only [h]
  rfl

theorem numberFromNullable_ok_num (airtableType : String) (p : MapperPair)
    (v : JsVal) (n : Rat) (h : p.fromAirtable v = .ok (.num n)) :
    (numberFromNullable airtableType p).fromAirtable v = .ok (.num n) := by
  unfold numberFromNullable
  simp only [h]
  rfl

theorem stringArrayFromNullable_ok_arr (p : MapperPair) (v : JsVal)
    (xs : List JsVal) (h : p.fromAirtable v = .ok (.arr xs)) :
    (stringArrayFromNullable p).fromAirtable v = .ok (.arr xs) := by
  unfold stringArrayFromNullable
  simp only [h]
  rfl

theorem jsNewDate_num_inRange (q : Rat)
    (hrange : ¬(q < -8640000000000000 ∨ (8640000000000000 : Rat) < q)) :
    jsNewDate (.num q) = some (jsTrunc q) := by
  show (if (q < -8640000000000000 ∨ (8640000000000000 : Rat) < q)
      then none else some (jsTrunc q)) = some (jsTrunc q)
  rw [if_neg hrange]

theorem dateTimeToAirtable_num_inRange (q : Rat)
    (hrange : ¬(q * 1000 < -8640000000000000 ∨ (8640000000000000 : Rat) < q * 1000)) :
    dateTimeToAirtable (.num q) = .ok (.str (jsDateToJSON (jsTrunc (q * 1000)))) := by
  have hred : dateTimeToAirtable (.num q) =
      (match jsNewDate (.num (q * 1000)) with
        | none =>
            (Except.error (mkAirtableTsError "Invalid date/time value provided."
              .SCHEMA_VALIDATION none) : Except JsError JsVal)
        | some ms => .ok (.str (jsDateToJSON ms))) := rfl
  rw [hred, jsNewDate_num_inRange (q * 1000) hrange]

theorem dateTimeToAirtable_str_eval (s : String) (ms : Int)
    (h : jsDateParse s = some ms) :
    dateTimeToAirtable (.str s) = .ok (.str (jsDateToJSON ms)) := by
  have hred : dateTimeToAirtable (.str s) =
      (match jsDateParse s with
        | none =>
            (Except.error (mkAirtableTsError "Invalid date/time value provided."
              .SCHEMA_VALIDATION none) : Except JsError JsVal)
        | some t => .ok (.str (jsDateToJSON t))) := rfl
  rw [hred, h]

theorem dateTimeFromAirtable_str_eval (s : String) (ms : Int)
    (h : jsDateParse s = some ms) :
    dateTimeFromAirtable (.str s) = .ok (.str (jsDateToJSON ms)) := by
  have hred : dateTimeFromAirtable (.str s) =
      (match jsDateParse s with
        | none =>
            (Except.error (mkAirtableTsError
              "Invalid date/time value recieved from Airtable."
              .SCHEMA_VALIDATION none) : Except JsError JsVal)
        | some t => .ok (.str (jsDateToJSON t))) := rfl
  rw [hred, h]

theorem numberDateFromAirtable_eval (t : Int)
    (hcanon : jsDateParse (jsDateToJSON t) = some t) :
    numberDateFromAirtable (.str (jsDateToJSON t)) =
      .ok (.num ((Int.fdiv t 1000 : Int) : Rat)) := by
  have hred : numberDateFromAirtable (.str (jsDateToJSON t)) =
      (dateTimeFromAirtable (.str (jsDateToJSON t))).bind (fun nv =>
        if isNull nv then (Except.ok JsVal.null : Except JsError JsVal)
        else
          match jsNewDate nv with
          | none =>
              Except.error (mkAirtableTsError
                "Invalid date/time value recieved from Airtable."
                .SCHEMA_VALIDATION none)
          | some ms => .ok (.num (Int.fdiv ms 1000))) := rfl
  rw [hred, dateTimeFromAirtable_str_eval _ t hcanon]
  simp only [Except.bind, isNull, Bool.false_eq_true, if_false,
    show ∀ s, jsNewDate (.str s) = jsDateParse s from fun _ => rfl, hcanon]

theorem coerce_array_pass (airtableType tsType : String) (xs : List JsVal)
    (hp : (parseType tsType).array = true)
    (hall : xs.all (fun e => jsTypeof e == (parseType tsType).single) = true) :
    coerce airtableType tsType (.arr xs) = .ok (.arr xs) := by
  unfold coerce
  simp [hp, hall, isJsArray]

theorem toRemote_eq_of_getMapper (tsType airtableType : String) (p : MapperPair)
    (h : getMapper tsType airtableType = .ok p) (v : JsVal) :
    toRemote tsType airtableType v = p.toAirtable v := by
  unfold toRemote
  rw [h]
  rfl

theorem fromRemote_eq_of_getMapper (tsType airtableType : String) (p : MapperPair)
    (h : getMapper tsType airtableType = .ok p) (v : JsVal) :
    fromRemote tsType airtableType v = p.fromAirtable v := by
  unfold fromRemote
  rw [h]
  rfl

theorem getMapper_string_null_eq (airtableType : String) (p : MapperPair)
    (h : stringOrNullMapper airtableType = some p) :
    getMapper "string | null" airtableType = .ok p := by
  simp [getMapper, hasMapperRow, fieldMappers, h]

theorem getMapper_string_eq (airtableType : String) (p : MapperPair)
    (h : stringOrNullMapper airtableType = some p) :
    getMapper "string" airtableType = .ok (stringFromNullable airtableType p) := by
  simp [getMapper, hasMapperRow, fieldMappers, h]

theorem getMapper_number_null_eq (airtableType : String) (p : MapperPair)
    (h : numberOrNullMapper airtableType = some p) :
    getMapper "number | null" airtableType = .ok p := by
  simp [getMapper, hasMapperRow, fieldMappers, h]

theorem getMapper_number_eq (airtableType : String) (p : MapperPair)
    (h : numberOrNullMapper airtableType = some p) :
    getMapper "number" airtableType = .ok (numberFromNullable airtableType p) := by
  simp [getMapper, hasMapperRow, fieldMappers, h]

theorem c3aux_text_string : ∀ a ∈ textLikeAirtableTypes, ∀ s : String,
    roundTrip "string" a (.str s) = .ok (.str s) := by
  intro a ha s
  fin_cases ha <;> rfl

theorem c3aux_text_string_null : ∀ a ∈ textLikeAirtableTypes, ∀ v : JsVal,
    matchesType v "string | null" = true → roundTrip "string | null" a v = .ok v := by
  intro a ha v hv
  rcases matches_string_null_inv v hv with rfl | ⟨s, rfl⟩ <;> fin_cases ha <;> rfl

theorem c3aux_objwrap_string : ∀ a ∈ (["barcode", "singleCollaborator"] : List String),
    ∀ s : String, roundTrip "string" a (.str s) = .ok (.str s) := by
  intro a ha s
  fin_cases ha <;> rfl

theorem c3aux_objwrap_string_null :
    ∀ a ∈ (["barcode", "singleCollaborator"] : List String), ∀ v : JsVal,
    matchesType v "string | null" = true → roundTrip "string | null" a v = .ok v := by
  intro a ha v hv
  rcases matches_string_null_inv v hv with rfl | ⟨s, rfl⟩ <;> fin_cases ha <;> rfl

theorem c3aux_selects_string : ∀ s : String,
    roundTrip "string" "multipleSelects" (.str s) = .ok (.str s) := by
  intro s
  by_cases hs : s = ""
  · subst hs; rfl
  · refine roundTrip_decomp _ _ _ (.arr [.str s]) _ ?_ ?_
    · have hred : toRemote "string" "multipleSelects" (.str s) =
          .ok (if jsTruthy (.str s) then JsVal.arr [.str s] else .arr []) := rfl
      rw [hred, show jsTruthy (.str s) = true from by simp [jsTruthy, hs]]
      rfl
    · rfl

theorem c3aux_links_string : ∀ s : String, s ≠ "" →
    roundTrip "string" "multipleRecordLinks" (.str s) = .ok (.str s) := by
  intro s hs
  refine roundTrip_decomp _ _ _ (.arr [.str s]) _ ?_ ?_
  · have hred : toRemote "string" "multipleRecordLinks" (.str s) =
        .ok (if jsTruthy (.str s) then JsVal.arr [.str s] else .arr []) := rfl
    rw [hred, show jsTruthy (.str s) = true from by simp [jsTruthy, hs]]
    rfl
  · rfl

theorem c3aux_selects_links_string_null :
    ∀ a ∈ (["multipleSelects", "multipleRecordLinks"] : List String), ∀ v : JsVal,
    matchesType v "string | null" = true → v ≠ .str "" →
    roundTrip "string | null" a v = .ok v := by
  intro a ha v hv hne
  rcases matches_string_null_inv v hv with rfl | ⟨s, rfl⟩
  · fin_cases ha <;> rfl
  · have hs : s ≠ "" := fun h => hne (by rw [h])
    have htr : jsTruthy (.str s) = true := by simp [jsTruthy, hs]
    fin_cases ha
    · refine roundTrip_decomp _ _ _ (.arr [.str s]) _ ?_ rfl
      rw [show toRemote "string | null" "multipleSelects" (.str s) =
          .ok (if jsTruthy (.str s) then JsVal.arr [.str s] else .arr []) from rfl, htr]
      rfl
    · refine roundTrip_decomp _ _ _ (.arr [.str s]) _ ?_ rfl
      rw [show toRemote "string | null" "multipleRecordLinks" (.str s) =
          .ok (if jsTruthy (.str s) then JsVal.arr [.str s] else .arr []) from rfl, htr]
      rfl

theorem c3aux_checkbox : (∀ v : JsVal, matchesType v "boolean" = true →
      roundTrip "boolean" "checkbox" v = .ok v) ∧
    (∀ v : JsVal, matchesType v "boolean | null" = true →
      roundTrip "boolean | null" "checkbox" v = .ok v) := by
  constructor
  · intro v hv
    obtain ⟨b, rfl⟩ := matches_boolean_inv v hv
    rfl
  · intro v hv
    rcases matches_boolean_null_inv v hv with rfl | ⟨b, rfl⟩ <;> rfl

theorem c3aux_numeric_string : ∀ a ∈ numericAirtableTypes, ∀ v : JsVal,
    matchesType v "number" = true → roundTrip "number" a v = .ok v := by
  intro a ha v hv
  obtain ⟨q, rfl⟩ := matches_number_inv v hv
  fin_cases ha <;> rfl

theorem c3aux_numeric_null : ∀ a ∈ numericAirtableTypes, ∀ v : JsVal,
    matchesType v "number | null" = true → roundTrip "number | null" a v = .ok v := by
  intro a ha v hv
  rcases matches_number_null_inv v hv with rfl | ⟨q, rfl⟩ <;> fin_cases ha <;> rfl

theorem c3aux_arr_selects : ∀ a ∈ (["multipleSelects", "multipleRecordLinks"] : List String),
    ∀ v : JsVal, matchesType v "string[]" = true →
    roundTrip "string[]" a v = .ok v := by
  intro a ha v hv
  obtain ⟨xs, rfl, -⟩ := matches_string_arr_inv v hv
  fin_cases ha <;> rfl

theorem c3aux_arr_selects_null :
    ∀ a ∈ (["multipleSelects", "multipleRecordLinks"] : List String), ∀ v : JsVal,
    matchesType v "string[] | null" = true → v ≠ JsVal.null →
    roundTrip "string[] | null" a v = .ok v := by
  intro a ha v hv hne
  rcases matches_string_arr_null_inv v hv with rfl | ⟨xs, rfl, -⟩
  · exact absurd rfl hne
  · fin_cases ha <;> rfl

theorem c3aux_unknown :
    ∀ t ∈ (["string", "string | null", "boolean", "boolean | null", "number",
      "number | null", "string[]", "string[] | null"] : List String),
    ∀ v : JsVal, matchesType v t = true → roundTrip t "unknown" v = .ok v := by
  intro t ht v hv
  fin_cases ht
  · obtain ⟨s, rfl⟩ := matches_string_inv v hv
    rfl
  · rcases matches_string_null_inv v hv with rfl | ⟨s, rfl⟩ <;> rfl
  · obtain ⟨b, rfl⟩ := matches_boolean_inv v hv
    rfl
  · rcases matches_boolean_null_inv v hv with rfl | ⟨b, rfl⟩ <;> rfl
  · obtain ⟨q, rfl⟩ := matches_number_inv v hv
    rfl
  · rcases matches_number_null_inv v hv with rfl | ⟨q, rfl⟩ <;> rfl
  · obtain ⟨xs, rfl, hall⟩ := matches_string_arr_inv v hv
    refine roundTrip_decomp _ _ _ (.arr xs) _ rfl ?_
    have hred : fromRemote "string[]" "unknown" (.arr xs) =
        (stringArrayFromNullable
          { toAirtable := fun w => .ok w
            fromAirtable := coerce "unknown" "string[] | null" }).fromAirtable
          (.arr xs) := rfl
    rw [hred]
    exact stringArrayFromNullable_ok_arr _ _ xs
      (coerce_array_pass "unknown" "string[] | null" xs (by decide) hall)
  · rcases matches_string_arr_null_inv v hv with rfl | ⟨xs, rfl, hall⟩
    · rfl
    · refine roundTrip_decomp _ _ _ (.arr xs) _ rfl ?_
      have hred : fromRemote "string[] | null" "unknown" (.arr xs) =
          coerce "unknown" "string[] | null" (.arr xs) := rfl
      rw [hred]
      exact coerce_array_pass "unknown" "string[] | null" xs (by decide) hall

theorem dtp_from_ok (v : JsVal) (s : String)
    (h : dateTimeFromAirtable v = .ok (.str s)) :
    dateTimeMapperPair.fromAirtable v = .ok (.str s) := h

theorem ndp_from_ok (v : JsVal) (n : Rat)
    (h : numberDateFromAirtable v = .ok (.num n)) :
    (MapperPair.mk dateTimeToAirtable numberDateFromAirtable).fromAirtable v =
      .ok (.num n) := h

theorem c3aux_datetime_str :
    ∀ a ∈ (["dateTime", "createdTime", "lastModifiedTime"] : List String),
    ∀ (s : String) (ms : Int),
    jsDateParse s = some ms → jsDateParse (jsDateToJSON ms) = some ms →
    roundTrip "string" a (.str s) = .ok (.str (jsDateToJSON ms)) ∧
    roundTrip "string | null" a (.str s) = .ok (.str (jsDateToJSON ms)) := by
  intro a ha s ms hp hc
  have hmap : stringOrNullMapper a = some dateTimeMapperPair := by
    fin_cases ha <;> rfl
  constructor
  · refine roundTrip_decomp _ _ _ (.str (jsDateToJSON ms)) _ ?_ ?_
    · rw [toRemote_eq_of_getMapper _ _ _ (getMapper_string_eq a _ hmap)]
      exact dateTimeToAirtable_str_eval s ms hp
    · rw [fromRemote_eq_of_getMapper _ _ _ (getMapper_string_eq a _ hmap)]
      exact stringFromNullable_ok_str a dateTimeMapperPair (.str (jsDateToJSON ms))
        (jsDateToJSON ms)
        (dtp_from_ok _ _ (dateTimeFromAirtable_str_eval (jsDateToJSON ms) ms hc))
  · refine roundTrip_decomp _ _ _ (.str (jsDateToJSON ms)) _ ?_ ?_
    · rw [toRemote_eq_of_getMapper _ _ _ (getMapper_string_null_eq a _ hmap)]
      exact dateTimeToAirtable_str_eval s ms hp
    · rw [fromRemote_eq_of_getMapper _ _ _ (getMapper_string_null_eq a _ hmap)]
      exact dtp_from_ok _ _ (dateTimeFromAirtable_str_eval (jsDateToJSON ms) ms hc)

theorem c3aux_datetime_str_null :
    ∀ a ∈ (["dateTime", "createdTime", "lastModifiedTime"] : List String),
    roundTrip "string | null" a JsVal.null = .ok JsVal.null := by
  intro a ha
  fin_cases ha <;> rfl

theorem c3aux_datetime_num :
    ∀ a ∈ (["dateTime", "createdTime", "lastModifiedTime"] : List String), ∀ q : Rat,
    ¬(q * 1000 < -8640000000000000 ∨ (8640000000000000 : Rat) < q * 1000) →
    jsDateParse (jsDateToJSON (jsTrunc (q * 1000))) = some (jsTrunc (q * 1000)) →
    roundTrip "number" a (.num q) =
      .ok (.num ((Int.fdiv (jsTrunc (q * 1000)) 1000 : Int) : Rat)) ∧
    roundTrip "number | null" a (.num q) =
      .ok (.num ((Int.fdiv (jsTrunc (q * 1000)) 1000 : Int) : Rat)) := by
  intro a ha q hrange hcanon
  have hmap : numberOrNullMapper a =
      some { toAirtable := dateTimeToAirtable, fromAirtable := numberDateFromAirtable } := by
    fin_cases ha <;> rfl
  constructor
  · refine roundTrip_decomp _ _ _ (.str (jsDateToJSON (jsTrunc (q * 1000)))) _ ?_ ?_
    · rw [toRemote_eq_of_getMapper _ _ _ (getMapper_number_eq a _ hmap)]
      exact dateTimeToAirtable_num_inRange q hrange
    · rw [fromRemote_eq_of_getMapper _ _ _ (getMapper_number_eq a _ hmap)]
      exact numberFromNullable_ok_num a
        (MapperPair.mk dateTimeToAirtable numberDateFromAirtable)
        (.str (jsDateToJSON (jsTrunc (q * 1000))))
        ((Int.fdiv (jsTrunc (q * 1000)) 1000 : Int) : Rat)
        (ndp_from_ok _ _ (numberDateFromAirtable_eval (jsTrunc (q * 1000)) hcanon))
  · refine roundTrip_decomp _ _ _ (.str (jsDateToJSON (jsTrunc (q * 1000)))) _ ?_ ?_
    · rw [toRemote_eq_of_getMapper _ _ _ (getMapper_number_null_eq a _ hmap)]
      exact dateTimeToAirtable_num_inRange q hrange
    · rw [fromRemote_eq_of_getMapper _ _ _ (getMapper_number_null_eq a _ hmap)]
      exact ndp_from_ok _ _ (numberDateFromAirtable_eval (jsTrunc (q * 1000)) hcanon)

theorem c3aux_datetime_num_null :
    ∀ a ∈ (["dateTime", "createdTime", "lastModifiedTime"] : List String),
    roundTrip "number | null" a JsVal.null = .ok JsVal.null := by
  intro a ha
  fin_cases ha <;> rfl

/-- C3 (amended): the round-trip `fromAirtable ∘ toAirtable` over the
writable coercion matrix is the identity on matching values for the
text-like, object-wrapped (`barcode`/`singleCollaborator`), checkbox,
numeric, select/link, array and unknown rows — excluding only the
divergent cases exhibited by the counterexample (the `multipleCollaborators`
pairs, the day-granular `date` row, the empty string on the nullable
select/link scalar rows and on the non-nullable `multipleRecordLinks`
scalar row, and `null` on the nullable select/link array rows); the
non-nullable `string`/`multipleSelects` row is identity for every string
including the empty one. For the dateTime-family rows the trip is the
stated canonicalization: string values round-trip to the canonical
ISO-8601 form of their parsed timestamp, and number values come back
floored to whole seconds of the millisecond-clipped input, with `null`
preserved on the nullable rows. -/
theorem c3_roundtrip_amended :
    (∀ a ∈ textLikeAirtableTypes, ∀ s : String,
      roundTrip "string" a (.str s) = .ok (.str s)) ∧
    (∀ a ∈ textLikeAirtableTypes, ∀ v : JsVal,
      matchesType v "string | null" = true → roundTrip "string | null" a v = .ok v) ∧
    (∀ a ∈ (["barcode", "singleCollaborator"] : List String), ∀ s : String,
      roundTrip "string" a (.str s) = .ok (.str s)) ∧
    (∀ a ∈ (["barcode", "singleCollaborator"] : List String), ∀ v : JsVal,
      matchesType v "string | null" = true → roundTrip "string | null" a v = .ok v) ∧
    (∀ s : String, roundTrip "string" "multipleSelects" (.str s) = .ok (.str s)) ∧
    (∀ s : String, s ≠ "" →
      roundTrip "string" "multipleRecordLinks" (.str s) = .ok (.str s)) ∧
    (∀ a ∈ (["multipleSelects", "multipleRecordLinks"] : List String), ∀ v : JsVal,
      matchesType v "string | null" = true → v ≠ .str "" →
      roundTrip "string | null" a v = .ok v) ∧
    (∀ v : JsVal, matchesType v "boolean" = true →
      roundTrip "boolean" "checkbox" v = .ok v) ∧
    (∀ v : JsVal, matchesType v "boolean | null" = true →
      roundTrip "boolean | null" "checkbox" v = .ok v) ∧
    (∀ a ∈ numericAirtableTypes, ∀ v : JsVal,
      matchesType v "number" = true → roundTrip "number" a v = .ok v) ∧
    (∀ a ∈ numericAirtableTypes, ∀ v : JsVal,
      matchesType v "number | null" = true → roundTrip "number | null" a v = .ok v) ∧
    (∀ a ∈ (["multipleSelects", "multipleRecordLinks"] : List String), ∀ v : JsVal,
      matchesType v "string[]" = true → roundTrip "string[]" a v = .ok v) ∧
    (∀ a ∈ (["multipleSelects", "multipleRecordLinks"] : List String), ∀ v : JsVal,
      matchesType v "string[] | null" = true → v ≠ JsVal.null →
      roundTrip "string[] | null" a v = .ok v) ∧
    (∀ t ∈ (["string", "string | null", "boolean", "boolean | null", "number",
        "number | null", "string[]", "string[] | null"] : List String),
      ∀ v : JsVal, matchesType v t = true → roundTrip t "unknown" v = .ok v) ∧
    (∀ a ∈ (["dateTime", "createdTime", "lastModifiedTime"] : List String),
      ∀ (s : String) (ms : Int),
      jsDateParse s = some ms → jsDateParse (jsDateToJSON ms) = some ms →
      roundTrip "string" a (.str s) = .ok (.str (jsDateToJSON ms)) ∧
      roundTrip "string | null" a (.str s) = .ok (.str (jsDateToJSON ms))) ∧
    (∀ a ∈ (["dateTime", "createdTime", "lastModifiedTime"] : List String),
      roundTrip "string | null" a JsVal.null = .ok JsVal.null) ∧
    (∀ a ∈ (["dateTime", "createdTime", "lastModifiedTime"] : List String), ∀ q : Rat,
      ¬(q * 1000 < -8640000000000000 ∨ (8640000000000000 : Rat) < q * 1000) →
      jsDateParse (jsDateToJSON (jsTrunc (q * 1000))) = some (jsTrunc (q * 1000)) →
      roundTrip "number" a (.num q) =
        .ok (.num ((Int.fdiv (jsTrunc (q * 1000)) 1000 : Int) : Rat)) ∧
      roundTrip "number | null" a (.num q) =
        .ok (.num ((Int.fdiv (jsTrunc (q * 1000)) 1000 : Int) : Rat))) ∧
    (∀ a ∈ (["dateTime", "createdTime", "lastModifiedTime"] : List String),
      roundTrip "number | null" a JsVal.null = .ok JsVal.null) :=
  ⟨c3aux_text_string, c3aux_text_string_null, c3aux_objwrap_string,
    c3aux_objwrap_string_null, c3aux_selects_string, c3aux_links_string,
    c3aux_selects_links_string_null, c3aux_checkbox.1, c3aux_checkbox.2,
    c3aux_numeric_string, c3aux_numeric_null, c3aux_arr_selects,
    c3aux_arr_selects_null, c3aux_unknown, c3aux_datetime_str,
    c3aux_datetime_str_null, c3aux_datetime_num, c3aux_datetime_num_null⟩

theorem c3_roundtrip_amended_witness :
    roundTrip "string" "singleLineText" (.str "hello") = .ok (.str "hello") ∧
    roundTrip "string" "dateTime" (.str "2024-01-15T10:30:00.000Z") =
      .ok (.str (jsDateToJSON 1705314600000)) :=
  ⟨c3_roundtrip_amended.1 "singleLineText" (by decide) "hello",
    (c3_roundtrip_amended.2.2.2.2.2.2.2.2.2.2.2.2.2.2.1 "dateTime" (by decide)
      "2024-01-15T10:30:00.000Z" 1705314600000 (by decide) (by decide)).1⟩

end AirtableTs
